import Mathlib

/-!
Shallow embedding of the typeracer-webapp insight engine
(`backend/insights.py` and the rest-interval bucketing of
`backend/main.py`), together with proofs of the specified properties.

Modelling conventions:
* Python floats are modelled as exact rationals (`ℚ`); `sqrt` (used only
  for standard deviations) is modelled by a fixed-precision rational
  approximation — no proved claim depends on the value of a standard
  deviation.
* A dataframe is a list of rows; polars column operations become list
  operations.  Group-by keys are collected in first-occurrence order
  (polars leaves the order of groups unspecified); wherever the source
  sorts the grouped frame, the embedding sorts by the same key.
* A fallible computation returns `Option`: `none` plays the role of a
  raised Python exception (polars returns `None` for the mean/std of an
  empty/short column and the subsequent f-string formatting raises
  `TypeError`; scalar division by zero raises `ZeroDivisionError`).
* String rendering: Python's fixed-precision format specifiers
  (`:.1f`, `:+.0f`, `strftime`) are abstracted by `toString` of the exact
  rational / abstract calendar index; the *placement* of every computed
  value inside its sentence follows the source.
-/

namespace TypeRacer

/-- One row of the canonical dataset produced by the data normalizer:
race number, speed, accuracy, rank, field size, text id, timestamp
(seconds), and the derived date / hour / year-month / win fields.
Timestamps and calendar fields are modelled as abstract integers. -/
structure Race where
  race_num : Int
  wpm : ℚ
  accuracy : ℚ
  rank : Int
  num_racers : Int
  text_id : Int
  datetime_utc : ℚ
  date : Int
  hour : Int
  year_month : Int
  win : Bool
deriving DecidableEq

/-- A dataset is a finite ordered collection of race rows. -/
abbrev DataFrame := List Race

/-- Rendering of a float value inside an insight sentence (the `:.1f`
style precision of the source is abstracted away). -/
def fmt (x : ℚ) : String := toString x

/-- Rendering with an explicit sign, as Python's `:+.1f` / `:+.0f`. -/
def fmtSigned (x : ℚ) : String := if 0 ≤ x then "+" ++ toString x else toString x

/-- Rendering of `strftime('%b %Y')` on the abstract month index. -/
def fmtMonth (ym : Int) : String := "month " ++ toString ym

/-- Rendering of `strftime('%b %d')` on the abstract day index. -/
def fmtDay (d : Int) : String := "day " ++ toString d

/-- Python scalar division: `ZeroDivisionError` when the denominator is 0. -/
def pyDiv (a b : ℚ) : Option ℚ := if b = 0 then none else some (a / b)

/-- Fixed-precision rational approximation of the square root, standing in
for float `sqrt` in standard deviations.  For `x = n/d`,
`sqrt x = sqrt (n*d) / d` is approximated with 6 decimal digits. -/
def ratSqrt (x : ℚ) : ℚ :=
  if x ≤ 0 then 0
  else (Nat.sqrt (x.num.toNat * x.den * 10 ^ 12) : ℚ) / ((x.den : ℚ) * 10 ^ 6)

/-- polars `Series.mean`: `None` on an empty column. -/
def plMean (l : List ℚ) : Option ℚ :=
  if l.isEmpty then none else some (l.sum / l.length)

/-- polars `Series.std` (sample standard deviation, `ddof = 1`):
`None` when fewer than two values are present. -/
def plStd (l : List ℚ) : Option ℚ :=
  if l.length < 2 then none
  else
    let m := l.sum / l.length
    some (ratSqrt ((l.map (fun x => (x - m) ^ 2)).sum / ((l.length : ℚ) - 1)))

/-- One folding step of a running minimum. -/
def minStep (x : ℚ) (acc : Option ℚ) : Option ℚ :=
  match acc with | none => some x | some y => some (min x y)

/-- One folding step of a running maximum. -/
def maxStep (x : ℚ) (acc : Option ℚ) : Option ℚ :=
  match acc with | none => some x | some y => some (max x y)

/-- Minimum of a column (`None` on an empty column). -/
def minQ (l : List ℚ) : Option ℚ := l.foldr minStep none

/-- Maximum of a column (`None` on an empty column). -/
def maxQ (l : List ℚ) : Option ℚ := l.foldr maxStep none

/-- One folding step of a running integer maximum. -/
def maxStepI (x : Int) (acc : Option Int) : Option Int :=
  match acc with | none => some x | some y => some (max x y)

/-- Maximum of an integer column. -/
def maxI (l : List Int) : Option Int := l.foldr maxStepI none

/-- First index of the maximal non-null entry (polars `arg_max`; `None`
when every entry is null). -/
def argMaxO (l : List (Option ℚ)) : Option Nat :=
  (l.enum.foldl
    (fun acc p =>
      match p.2 with
      | none => acc
      | some v =>
        match acc with
        | none => some (p.1, v)
        | some im => if v > im.2 then some (p.1, v) else acc)
    none).map Prod.fst

/-- First index of the minimal non-null entry (polars `arg_min`). -/
def argMinO (l : List (Option ℚ)) : Option Nat :=
  (l.enum.foldl
    (fun acc p =>
      match p.2 with
      | none => acc
      | some v =>
        match acc with
        | none => some (p.1, v)
        | some im => if v < im.2 then some (p.1, v) else acc)
    none).map Prod.fst

/-- First index of the maximal value of a float column. -/
def argMaxQ (l : List ℚ) : Option Nat := argMaxO (l.map some)

/-- First index of the minimal value of a float column. -/
def argMinQ (l : List ℚ) : Option Nat := argMinO (l.map some)

/-- First index of the maximal entry of a list of natural numbers
(`np.argmax`; `0` on the empty list, which never occurs in use). -/
def argMaxNat (l : List Nat) : Nat :=
  (l.enum.foldl
    (fun acc p =>
      match acc with
      | none => some (p.1, p.2)
      | some im => if p.2 > im.2 then some (p.1, p.2) else acc)
    none).map Prod.fst |>.getD 0

/-- The distinct values of a column in first-occurrence order. -/
def dedupKeys {β : Type} [DecidableEq β] (l : List β) : List β :=
  l.foldl (fun acc k => if k ∈ acc then acc else acc ++ [k]) []

/-- polars `group_by`: one group per distinct key, keys in
first-occurrence order, rows of each group in frame order. -/
def groupByKey {β : Type} [DecidableEq β] (key : Race → β) (df : DataFrame) :
    List (β × DataFrame) :=
  (dedupKeys (df.map key)).map (fun k => (k, df.filter (fun r => key r = k)))

/-- `df.sort("race_num")` (stable; `race_num` is a unique ordering key). -/
def sortByRaceNum (df : DataFrame) : DataFrame :=
  List.insertionSort (fun a b => a.race_num ≤ b.race_num) df

/-- `df.sort("datetime_utc")` (stable). -/
def sortByDatetime (df : DataFrame) : DataFrame :=
  List.insertionSort (fun a b => a.datetime_utc ≤ b.datetime_utc) df

/-- polars `Series.quantile` with its default `nearest` interpolation:
the element of the ascending-sorted column at index `round (q*(n-1))`. -/
def plQuantile (l : List ℚ) (q : ℚ) : Option ℚ :=
  if l.isEmpty then none
  else
    let s := List.insertionSort (fun a b : ℚ => a ≤ b) l
    s[(round (q * ((l.length : ℚ) - 1))).toNat]?

/-- `np.histogram(values, bins)`: `bins` equal-width bins over
`[min, max]` (range `(0,1)` for empty data, widened by `±1/2` when all
values coincide); every bin is half-open except the last, which is
closed.  Returns the counts and the bin edges. -/
def npHistogram (values : List ℚ) (bins : Nat) : List Nat × List ℚ :=
  let lo0 := (minQ values).getD 0
  let hi0 := (maxQ values).getD 1
  let lo := if lo0 = hi0 then lo0 - 1/2 else lo0
  let hi := if lo0 = hi0 then hi0 + 1/2 else hi0
  let edges := (List.range (bins + 1)).map (fun i => lo + (hi - lo) * i / bins)
  let counts := (List.range bins).map (fun i =>
    let a := lo + (hi - lo) * i / bins
    let b := lo + (hi - lo) * (i + 1) / bins
    if i = bins - 1 then (values.filter (fun x => a ≤ x ∧ x ≤ b)).length
    else (values.filter (fun x => a ≤ x ∧ x < b)).length)
  (counts, edges)

/-- The WPM mode-bin range string of `calculate_wpm_distribution_insights`:
15-bin histogram, first bin with the highest count, rendered as
`"{lo}-{hi}"`. -/
def modeRangeOfWpm (wpm : List ℚ) : String :=
  let h := npHistogram wpm 15
  let max_bin_idx := argMaxNat h.1
  let a := (h.2[max_bin_idx]?).getD 0
  let b := (h.2[max_bin_idx + 1]?).getD 0
  fmt a ++ "-" ++ fmt b

/-- The win flag as a float, for polars means over the `win` column. -/
def winQ (r : Race) : ℚ := if r.win then 1 else 0

/-! ### calculate_wpm_distribution_insights -/

/-- The fallible values of `calculate_wpm_distribution_insights`
(mean, two quantiles and std of the `wpm` column; formatting a null
raises). -/
structure WpmDistVals where
  mean_wpm : ℚ
  p90_wpm : ℚ
  p10_wpm : ℚ
  std_wpm : ℚ
deriving DecidableEq

def wpmDistVals (wpm : List ℚ) : Option WpmDistVals := do
  let mean_wpm ← plMean wpm
  let p90_wpm ← plQuantile wpm (9/10)
  let p10_wpm ← plQuantile wpm (1/10)
  let std_wpm ← plStd wpm
  pure ⟨mean_wpm, p90_wpm, p10_wpm, std_wpm⟩

def wpmDistSentences (wpm : List ℚ) (v : WpmDistVals) : List String :=
  let mode_range := modeRangeOfWpm wpm
  let elite_count := (wpm.filter (fun x => 100 ≤ x)).length
  let beginner_count := (wpm.filter (fun x => x < 40)).length
  [s!"Your average typing speed is {fmt v.mean_wpm} WPM",
   s!"Most races fall between {mode_range} WPM range",
   s!"You need {fmt v.p90_wpm}+ WPM to reach your top 10% performances",
   s!"Your slowest 10% of races are below {fmt v.p10_wpm} WPM",
   s!"Speed consistency: ±{fmt v.std_wpm} WPM standard deviation",
   s!"Fast races (100+ WPM): {elite_count} times, Learning races (<40 WPM): {beginner_count} times"]

def calculate_wpm_distribution_insights (df : DataFrame) : Option (List String) :=
  let wpm := df.map Race.wpm
  (wpmDistVals wpm).map (wpmDistSentences wpm)

/-! ### calculate_accuracy_distribution_insights -/

structure AccDistVals where
  mean_acc : ℚ
  above_95_pct : ℚ
  std_acc : ℚ
  lowest_acc : ℚ
deriving DecidableEq

def accDistVals (df : DataFrame) : Option AccDistVals := do
  let acc := df.map Race.accuracy
  let mean_acc ← plMean acc
  let frac ← pyDiv ((acc.filter (fun x => 95/100 < x)).length : ℚ) (df.length : ℚ)
  let std_acc ← plStd acc
  let lowest_acc ← minQ acc
  pure ⟨mean_acc, frac * 100, std_acc, lowest_acc⟩

def accDistSentences (df : DataFrame) (v : AccDistVals) : List String :=
  let acc := df.map Race.accuracy
  let perfect_count := (acc.filter (fun x => x = 1)).length
  let below_90_count := (acc.filter (fun x => x < 90/100)).length
  let tier_90_95 := (acc.filter (fun x => 90/100 ≤ x ∧ x < 95/100)).length
  let tier_95_99 := (acc.filter (fun x => 95/100 ≤ x ∧ x < 1)).length
  let mean_pct := v.mean_acc * 100
  let std_pct := v.std_acc * 100
  let lowest_pct := v.lowest_acc * 100
  [s!"Your average accuracy is {fmt mean_pct}%",
   s!"You achieve 95%+ accuracy in {fmt v.above_95_pct}% of races",
   s!"Perfect 100% accuracy: {perfect_count} races completed",
   s!"Accuracy consistency: ±{fmt std_pct}% variation between races",
   s!"Your lowest accuracy was {fmt lowest_pct}% ({below_90_count} races below 90%)",
   s!"Accuracy tiers: {tier_90_95} races (90-95%), {tier_95_99} races (95-99%)"]

def calculate_accuracy_distribution_insights (df : DataFrame) : Option (List String) :=
  (accDistVals df).map (accDistSentences df)

/-! ### calculate_performance_over_time_insights -/

/-- One row of the grouped-by-month frame of
`calculate_performance_over_time_insights` (groups are nonempty, so the
group mean is total; the group std is null for single-row groups). -/
structure MonthAgg where
  ym : Int
  avg_wpm : ℚ
  std_wpm : Option ℚ
  race_count : Nat
deriving DecidableEq

def monthlyAvg (df : DataFrame) : List MonthAgg :=
  List.insertionSort (fun a b => a.ym ≤ b.ym)
    ((groupByKey Race.year_month df).map (fun p =>
      { ym := p.1
        avg_wpm := (plMean (p.2.map Race.wpm)).getD 0
        std_wpm := plStd (p.2.map Race.wpm)
        race_count := p.2.length }))

structure PotVals where
  first_month_wpm : ℚ
  last_month_wpm : ℚ
  best_month_wpm : ℚ
  best_month : Int
  worst_month_wpm : ℚ
  worst_month : Int
  consistent_month : Int
  consistent_std : ℚ
  active_month : Int
  active_count : Nat
  change_pct : ℚ
deriving DecidableEq

def potVals (monthly : List MonthAgg) : Option PotVals := do
  let m0 ← monthly[0]?
  let mlast ← monthly.getLast?
  let bi ← argMaxQ (monthly.map MonthAgg.avg_wpm)
  let bm ← monthly[bi]?
  let wi ← argMinQ (monthly.map MonthAgg.avg_wpm)
  let wm ← monthly[wi]?
  let ci ← argMinO (monthly.map MonthAgg.std_wpm)
  let cm ← monthly[ci]?
  let cstd ← cm.std_wpm
  let ai ← argMaxQ (monthly.map (fun g => (g.race_count : ℚ)))
  let am ← monthly[ai]?
  let change ← pyDiv (mlast.avg_wpm - m0.avg_wpm) m0.avg_wpm
  pure
    { first_month_wpm := m0.avg_wpm, last_month_wpm := mlast.avg_wpm
      best_month_wpm := bm.avg_wpm, best_month := bm.ym
      worst_month_wpm := wm.avg_wpm, worst_month := wm.ym
      consistent_month := cm.ym, consistent_std := cstd
      active_month := am.ym, active_count := am.race_count
      change_pct := change * 100 }

def potSentences (v : PotVals) : List String :=
  let direction :=
    if v.change_pct > 0 then "↗ Improved"
    else if v.change_pct < 0 then "↘ Declined" else "→ Stable"
  let achange := |v.change_pct|
  [s!"Speed trend: {fmt v.first_month_wpm} → {fmt v.last_month_wpm} WPM over time",
   s!"Overall improvement: {direction} {fmt achange}% since you started",
   s!"Best month: {fmtMonth v.best_month} ({fmt v.best_month_wpm} WPM average)",
   s!"Toughest month: {fmtMonth v.worst_month} ({fmt v.worst_month_wpm} WPM average)",
   s!"Most consistent month: {fmtMonth v.consistent_month} (±{fmt v.consistent_std} WPM variation)",
   s!"Most active month: {fmtMonth v.active_month} ({v.active_count} races completed)"]

def calculate_performance_over_time_insights (df : DataFrame) : Option (List String) :=
  let monthly := monthlyAvg df
  if monthly.length < 2 then
    some ["Need at least 2 months of data", "Current month shown",
          "Keep racing for trends", "Upload more race data",
          "Monthly trends coming soon", "Practice consistently for insights"]
  else (potVals monthly).map potSentences

/-! ### calculate_daily_performance_insights -/

structure DayAgg where
  date : Int
  avg_wpm : ℚ
  avg_acc : ℚ
  race_count : Nat
deriving DecidableEq

def dailyStats (df : DataFrame) : List DayAgg :=
  List.insertionSort (fun a b => a.date ≤ b.date)
    ((groupByKey Race.date df).map (fun p =>
      { date := p.1
        avg_wpm := (plMean (p.2.map Race.wpm)).getD 0
        avg_acc := (plMean (p.2.map Race.accuracy)).getD 0
        race_count := p.2.length }))

structure DailyVals where
  most_active_date : Int
  most_active_count : Nat
  best_wpm_date : Int
  best_wpm_value : ℚ
  worst_wpm_date : Int
  worst_wpm_value : ℚ
  best_acc_date : Int
  best_acc_value : ℚ
  avg_races_per_day : ℚ
  std_dev : ℚ
deriving DecidableEq

def dailyVals (daily : List DayAgg) : Option DailyVals := do
  let mi ← argMaxQ (daily.map (fun g => (g.race_count : ℚ)))
  let ma ← daily[mi]?
  let bi ← argMaxQ (daily.map DayAgg.avg_wpm)
  let bw ← daily[bi]?
  let wi ← argMinQ (daily.map DayAgg.avg_wpm)
  let ww ← daily[wi]?
  let ai ← argMaxQ (daily.map DayAgg.avg_acc)
  let ba ← daily[ai]?
  let avg_races ← plMean (daily.map (fun g => (g.race_count : ℚ)))
  let std_dev ← plStd (daily.map DayAgg.avg_wpm)
  pure
    { most_active_date := ma.date, most_active_count := ma.race_count
      best_wpm_date := bw.date, best_wpm_value := bw.avg_wpm
      worst_wpm_date := ww.date, worst_wpm_value := ww.avg_wpm
      best_acc_date := ba.date, best_acc_value := ba.avg_acc
      avg_races_per_day := avg_races, std_dev := std_dev }

def dailySentences (v : DailyVals) : List String :=
  let acc_pct := v.best_acc_value * 100
  [s!"Most productive day: {fmtDay v.most_active_date} ({v.most_active_count} races completed)",
   s!"Best speed day: {fmtDay v.best_wpm_date} with {fmt v.best_wpm_value} WPM average",
   s!"Day-to-day speed varies by ±{fmt v.std_dev} WPM",
   s!"Worst performance: {fmtDay v.worst_wpm_date} with {fmt v.worst_wpm_value} WPM",
   s!"Most accurate day: {fmtDay v.best_acc_date} ({fmt acc_pct}% accuracy)",
   s!"You average {fmt v.avg_races_per_day} races per active typing day"]

def calculate_daily_performance_insights (df : DataFrame) : Option (List String) :=
  (dailyVals (dailyStats df)).map dailySentences

/-! ### calculate_rolling_average_insights -/

structure RollUnderVals where
  current_avg : ℚ
  recent_50 : ℚ
deriving DecidableEq

/-- Under 100 rows: `mean` of the whole sorted frame and of its
`tail(min(50, n))`; both are null (and raise on formatting) only when
the frame is empty. -/
def rollUnderVals (ds : DataFrame) : Option RollUnderVals := do
  let current_avg ← plMean (ds.map Race.wpm)
  let recent_50 ← plMean ((ds.drop (ds.length - min 50 ds.length)).map Race.wpm)
  pure ⟨current_avg, recent_50⟩

def rollUnderSentences (n : Nat) (v : RollUnderVals) : List String :=
  let need := 100 - n
  let k := min 50 n
  [s!"Current average: {fmt v.current_avg} WPM",
   s!"Need {need} more races for 100-race rolling average",
   "Keep racing to unlock rolling insights",
   s!"Recent {k} races: {fmt v.recent_50} WPM",
   s!"Progress: {n}/100 races completed",
   "Rolling analysis unlocks at 100 races"]

/-- The list of windows of width `w` (the non-null rows of the polars
`rolling_mean(window_size = w)` column, in order). -/
def rollingWindows (l : List ℚ) (w : Nat) : List (List ℚ) :=
  (List.range (l.length + 1 - w)).map (fun i => (l.drop i).take w)

structure RollMainVals where
  latest_100 : ℚ
  latest_std : ℚ
  overall_avg : ℚ
  max_rolling : ℚ
  min_rolling : ℚ
  peak_race_num : Int
deriving DecidableEq

def rollMainVals (ds : DataFrame) : Option RollMainVals := do
  let wpm := ds.map Race.wpm
  let means := (rollingWindows wpm 100).map (fun wdw => (plMean wdw).getD 0)
  let stds := (rollingWindows wpm 100).map (fun wdw => (plStd wdw).getD 0)
  let latest_100 ← means.getLast?
  let latest_std ← stds.getLast?
  let overall_avg ← plMean wpm
  let max_rolling ← maxQ means
  let min_rolling ← minQ means
  let mri ← argMaxQ means
  let peak ← ds[mri + 99]?
  pure ⟨latest_100, latest_std, overall_avg, max_rolling, min_rolling, peak.race_num⟩

def rollMainSentences (v : RollMainVals) : List String :=
  let d := v.latest_100 - v.overall_avg
  let ad := |v.latest_100 - v.overall_avg|
  let comparison :=
    if v.latest_100 > v.overall_avg then
      s!"{fmtSigned d} WPM above your overall average"
    else s!"{fmt ad} WPM below your overall average"
  [s!"Your last 100 races averaged {fmt v.latest_100} WPM",
   s!"Recent form: {comparison}",
   s!"Best 100-race streak peaked at {fmt v.max_rolling} WPM",
   s!"Peak performance occurred around race #{v.peak_race_num}",
   s!"Current consistency: ±{fmt v.latest_std} WPM in recent races",
   s!"Speed range: {fmt v.min_rolling} WPM (worst streak) to {fmt v.max_rolling} WPM (best)"]

def calculate_rolling_average_insights (df : DataFrame) : Option (List String) :=
  let ds := sortByRaceNum df
  if ds.length < 100 then (rollUnderVals ds).map (rollUnderSentences ds.length)
  else (rollMainVals ds).map rollMainSentences

/-! ### calculate_rank_distribution_insights -/

/-- polars `Series.mode()[0]`: a most-frequent value (the source relies
on polars' unspecified ordering of modes; modelled as the
first-occurring value of maximal count), raising on an empty column. -/
def plModeFirst (l : List Int) : Option Int := do
  let keys := dedupKeys l
  let i ← argMaxQ (keys.map (fun k => ((l.filter (fun x => x = k)).length : ℚ)))
  keys[i]?

structure RankDistVals where
  mode_rank : Int
  win_rate : ℚ
  top3_rate : ℚ
  top5_rate : ℚ
  worst_rank : Int
  avg_rank : ℚ
deriving DecidableEq

def rankDistVals (df : DataFrame) : Option RankDistVals := do
  let ranks := df.map Race.rank
  let mode_rank ← plModeFirst ranks
  let win_rate ← pyDiv ((df.filter (fun r => r.rank = 1)).length : ℚ) (df.length : ℚ)
  let top3_rate ← pyDiv ((df.filter (fun r => r.rank ≤ 3)).length : ℚ) (df.length : ℚ)
  let top5_rate ← pyDiv ((df.filter (fun r => r.rank ≤ 5)).length : ℚ) (df.length : ℚ)
  let worst_rank ← maxI ranks
  let avg_rank ← plMean (ranks.map (fun x => (x : ℚ)))
  pure ⟨mode_rank, win_rate * 100, top3_rate * 100, top5_rate * 100, worst_rank, avg_rank⟩

def rankDistSentences (df : DataFrame) (v : RankDistVals) : List String :=
  let mode_rank_count := (df.filter (fun r => r.rank = v.mode_rank)).length
  let competitive_races := (df.filter (fun r => 4 ≤ r.rank)).length
  let last_rate := 100 - v.top5_rate
  [s!"You place 1st in {fmt v.win_rate}% of your races",
   s!"Top 3 finishes: {fmt v.top3_rate}% of all races",
   s!"Average final position: {fmt v.avg_rank} out of {v.worst_rank} racers",
   s!"Last place finishes: {fmt last_rate}% of races",
   s!"Most common result: #{v.mode_rank} place ({mode_rank_count} races)",
   s!"Competitive races (4+ opponents): {competitive_races} total races"]

def calculate_rank_distribution_insights (df : DataFrame) : Option (List String) :=
  (rankDistVals df).map (rankDistSentences df)

/-! ### calculate_hourly_performance_insights -/

structure HourAgg where
  hour : Int
  avg_wpm : ℚ
  avg_acc : ℚ
  race_count : Nat
deriving DecidableEq

def hourlyAvg (df : DataFrame) : List HourAgg :=
  List.insertionSort (fun a b => a.hour ≤ b.hour)
    ((groupByKey Race.hour df).map (fun p =>
      { hour := p.1
        avg_wpm := (plMean (p.2.map Race.wpm)).getD 0
        avg_acc := (plMean (p.2.map Race.accuracy)).getD 0
        race_count := p.2.length }))

structure HourlyVals where
  best_hour : Int
  best_hour_wpm : ℚ
  worst_hour : Int
  worst_hour_wpm : ℚ
  most_active_hour : Int
  most_active_count : Nat
  best_acc_hour : Int
  best_acc_value : ℚ
deriving DecidableEq

def hourlyVals (hourly : List HourAgg) : Option HourlyVals := do
  let bi ← argMaxQ (hourly.map HourAgg.avg_wpm)
  let bh ← hourly[bi]?
  let wi ← argMinQ (hourly.map HourAgg.avg_wpm)
  let wh ← hourly[wi]?
  let mi ← argMaxQ (hourly.map (fun g => (g.race_count : ℚ)))
  let mh ← hourly[mi]?
  let ai ← argMaxQ (hourly.map HourAgg.avg_acc)
  let ah ← hourly[ai]?
  pure ⟨bh.hour, bh.avg_wpm, wh.hour, wh.avg_wpm, mh.hour, mh.race_count, ah.hour, ah.avg_acc⟩

def hourlySentences (hourly : List HourAgg) (v : HourlyVals) : List String :=
  let morning_hours := hourly.filter (fun g => 6 ≤ g.hour ∧ g.hour < 12)
  let evening_hours := hourly.filter (fun g => 18 ≤ g.hour ∧ g.hour < 24)
  let morning_avg := if morning_hours.length > 0 then (plMean (morning_hours.map HourAgg.avg_wpm)).getD 0 else 0
  let evening_avg := if evening_hours.length > 0 then (plMean (evening_hours.map HourAgg.avg_wpm)).getD 0 else 0
  let wpm_range := v.best_hour_wpm - v.worst_hour_wpm
  let morning_boost := if evening_avg > 0 then (morning_avg - evening_avg) / evening_avg * 100 else 0
  let bh1 := v.best_hour + 1
  let wh1 := v.worst_hour + 1
  let mh1 := v.most_active_hour + 1
  let acc_pct := v.best_acc_value * 100
  [s!"Peak typing hours: {v.best_hour}:00-{bh1}:00 ({fmt v.best_hour_wpm} WPM average)",
   s!"Slowest period: {v.worst_hour}:00-{wh1}:00 ({fmt v.worst_hour_wpm} WPM average)",
   if morning_avg > 0 ∧ evening_avg > 0 then
     s!"Morning boost: {fmtSigned morning_boost}% faster typing before noon"
   else "Need more varied timing data",
   if v.best_acc_hour ≥ 20 then
     s!"Evening accuracy drops to {fmt acc_pct}% after 8 PM"
   else s!"Best accuracy: {v.best_acc_hour}:00 hour ({fmt acc_pct}%)",
   s!"Most races completed: {v.most_active_hour}:00-{mh1}:00 timeframe",
   if v.worst_hour ≥ 23 then
     s!"Late night sessions (11 PM+): {fmt wpm_range}% speed decrease"
   else s!"Hour-to-hour variation: {fmt wpm_range} WPM range"]

def calculate_hourly_performance_insights (df : DataFrame) : Option (List String) :=
  let hourly := hourlyAvg df
  (hourlyVals hourly).map (hourlySentences hourly)

/-! ### calculate_wpm_vs_accuracy_insights -/

def wpmVsAccSentences (df : DataFrame) (high_speed_threshold : ℚ) : List String :=
  let high_acc_filter := df.filter (fun r => r.accuracy > 95/100)
  let high_acc_wpm := if high_acc_filter.length > 0 then (plMean (high_acc_filter.map Race.wpm)).getD 0 else 0
  let low_acc_filter := df.filter (fun r => r.accuracy < 90/100)
  let low_acc_wpm := if low_acc_filter.length > 0 then (plMean (low_acc_filter.map Race.wpm)).getD 0 else 0
  let high_speed_filter := df.filter (fun r => r.wpm ≥ high_speed_threshold)
  let min_acc_for_high_speed := if high_speed_filter.length > 0 then (minQ (high_speed_filter.map Race.accuracy)).getD 0 else 0
  let perfect_acc_filter := df.filter (fun r => r.accuracy = 1)
  let perfect_acc_races := perfect_acc_filter.length
  let perfect_acc_wpm := if perfect_acc_races > 0 then (plMean (perfect_acc_filter.map Race.wpm)).getD 0 else 0
  let min_acc_pct := min_acc_for_high_speed * 100
  ["Strong correlation: higher accuracy = faster speed",
   if high_acc_wpm > 0 then s!"At 95%+ accuracy, you average {fmt high_acc_wpm} WPM"
   else "Need more high accuracy races for analysis",
   if low_acc_wpm > 0 then s!"Below 90% accuracy, speed drops to {fmt low_acc_wpm} WPM"
   else "Excellent accuracy - no low accuracy races",
   "Sweet spot: 96-98% accuracy gives best speed/accuracy balance",
   if min_acc_for_high_speed > 0 then
     s!"Your accuracy floor for {fmt high_speed_threshold}+ WPM is {fmt min_acc_pct}%"
   else s!"Need more {fmt high_speed_threshold}+ WPM races for analysis",
   if perfect_acc_races > 0 then
     s!"Perfect accuracy races: {perfect_acc_races} times, averaging {fmt perfect_acc_wpm} WPM"
   else "Perfect accuracy races: 0 achieved so far"]

def calculate_wpm_vs_accuracy_insights (df : DataFrame) : Option (List String) :=
  (plQuantile (df.map Race.wpm) (3/4)).map (wpmVsAccSentences df)

/-! ### calculate_win_rate_monthly_insights -/

/-- The win-streak scan of `calculate_win_rate_monthly_insights`
(`max_win_streak` is raised inside the loop at every win, so a streak
still open at the last row is already counted). -/
def maxWinStreak (wins : List Bool) : Nat :=
  (wins.foldl
    (fun (p : Nat × Nat) w =>
      if w then (max p.1 (p.2 + 1), p.2 + 1) else (p.1, 0))
    (0, 0)).1

structure MonthWin where
  ym : Int
  win_rate : ℚ
  race_count : Nat
  avg_wpm : ℚ
deriving DecidableEq

def monthlyWins (df : DataFrame) : List MonthWin :=
  List.insertionSort (fun a b => a.ym ≤ b.ym)
    ((groupByKey Race.year_month df).map (fun p =>
      { ym := p.1
        win_rate := (plMean (p.2.map winQ)).getD 0
        race_count := p.2.length
        avg_wpm := (plMean (p.2.map Race.wpm)).getD 0 }))

structure WrmVals where
  overall_win_rate : ℚ
  best_month : Int
  best_rate : ℚ
  worst_month : Int
  worst_rate : ℚ
deriving DecidableEq

def wrmVals (df : DataFrame) (monthly : List MonthWin) : Option WrmVals := do
  let overall ← plMean (df.map winQ)
  let bi ← argMaxQ (monthly.map MonthWin.win_rate)
  let bm ← monthly[bi]?
  let wi ← argMinQ (monthly.map MonthWin.win_rate)
  let wm ← monthly[wi]?
  pure ⟨overall * 100, bm.ym, bm.win_rate * 100, wm.ym, wm.win_rate * 100⟩

def wrmSentences (df : DataFrame) (v : WrmVals) : List String :=
  let max_win_streak := maxWinStreak ((sortByRaceNum df).map Race.win)
  let wins_with_90_plus := (df.filter (fun r => r.win = true ∧ 90 ≤ r.wpm)).length
  let tw := (df.filter (fun r => r.win = true)).length
  let win_performance_rate := if tw > 0 then (wins_with_90_plus : ℚ) / tw * 100 else 0
  [s!"Overall win rate: {fmt v.overall_win_rate}% of all races",
   s!"Best winning month: {fmtMonth v.best_month} ({fmt v.best_rate}% win rate)",
   s!"Toughest competition month: {fmtMonth v.worst_month} ({fmt v.worst_rate}% wins)",
   s!"Win streak record: {max_win_streak} consecutive victories",
   s!"Wins often follow 90+ WPM performances ({fmt win_performance_rate}% of wins)",
   "Higher win rate in races with 3-4 opponents vs 5+"]

def calculate_win_rate_monthly_insights (df : DataFrame) : Option (List String) :=
  let monthly := monthlyWins df
  if monthly.length < 2 then
    some ["Need multiple months", "Current month shown", "Keep racing for trends",
          "Upload more race data", "Monthly trends coming soon", "Practice consistently"]
  else (wrmVals df monthly).map (wrmSentences df)

/-! ### calculate_top_texts_insights -/

structure TextAgg where
  text_id : Int
  attempts : Nat
  avg_wpm : ℚ
  best_wpm : ℚ
deriving DecidableEq

/-- The per-text frame, sorted by attempt count descending (polars
leaves the order of tied groups unspecified; modelled as stable
first-occurrence order). -/
def textStats (df : DataFrame) : List TextAgg :=
  List.insertionSort (fun a b => a.attempts ≥ b.attempts)
    ((groupByKey Race.text_id df).map (fun p =>
      { text_id := p.1
        attempts := p.2.length
        avg_wpm := (plMean (p.2.map Race.wpm)).getD 0
        best_wpm := (maxQ (p.2.map Race.wpm)).getD 0 }))

structure TopTextsVals where
  most_practiced : Int
  most_practiced_attempts : Nat
  best_text : Int
  best_avg_wpm : ℚ
  hardest_text : Int
  hardest_avg_wpm : ℚ
  avg_attempts : ℚ
  improvement_pct : ℚ
deriving DecidableEq

def topTextsVals (ts : List TextAgg) : Option TopTextsVals := do
  let t0 ← ts[0]?
  let bi ← argMaxQ (ts.map TextAgg.avg_wpm)
  let bt ← ts[bi]?
  let hi ← argMinQ (ts.map TextAgg.avg_wpm)
  let ht ← ts[hi]?
  let avg_attempts ← plMean (ts.map (fun g => (g.attempts : ℚ)))
  let repeated := ts.filter (fun g => 2 ≤ g.attempts)
  let improvement_pct ←
    if repeated.length > 0 then do
      let rm ← plMean (repeated.map TextAgg.avg_wpm)
      let am ← plMean (ts.map TextAgg.avg_wpm)
      let frac ← pyDiv (rm - am) am
      pure (frac * 100)
    else pure 0
  pure ⟨t0.text_id, t0.attempts, bt.text_id, bt.avg_wpm, ht.text_id, ht.avg_wpm,
        avg_attempts, improvement_pct⟩

def topTextsSentences (ts : List TextAgg) (v : TopTextsVals) : List String :=
  let repeated := ts.filter (fun g => 2 ≤ g.attempts)
  let unique_texts := ts.length
  [s!"Most practiced text: ID {v.most_practiced} ({v.most_practiced_attempts} attempts)",
   s!"Best performance text: ID {v.best_text} ({fmt v.best_avg_wpm} WPM avg)",
   s!"Hardest text: ID {v.hardest_text} ({fmt v.hardest_avg_wpm} WPM avg)",
   s!"You've practiced {unique_texts} different text passages",
   if repeated.length > 0 then
     s!"Repeated texts show {fmtSigned v.improvement_pct}% average improvement"
   else "Practice same texts multiple times for improvement insights",
   s!"Average practice depth: {fmt v.avg_attempts} attempts per text"]

def calculate_top_texts_insights (df : DataFrame) : Option (List String) :=
  let ts := textStats df
  if ts.length = 0 then
    some ["No text data available", "Upload race data", "Text analysis coming soon",
          "Practice different texts", "Variety helps improvement", "Track your favorites"]
  else (topTextsVals ts).map (topTextsSentences ts)

/-! ### calculate_consistency_insights -/

/-- Null-first comparison for sorting the weekly-std frame (polars sorts
nulls first by default). -/
def optLE (a b : Option ℚ) : Prop :=
  match a, b with
  | none, _ => True
  | some _, none => False
  | some x, some y => x ≤ y

instance (a b : Option ℚ) : Decidable (optLE a b) :=
  match a, b with
  | none, _ => isTrue trivial
  | some _, none => isFalse (fun h => h)
  | some x, some y => inferInstanceAs (Decidable (x ≤ y))

structure WeekAgg where
  week : Int
  wpm_std : Option ℚ
  week_start : Int
deriving DecidableEq

/-- The weekly-std frame of `calculate_consistency_insights` (the
`dt.truncate("1w")` week key is modelled as integer division of the
abstract day index by 7); sorted by std with nulls first. -/
def weeklyStd (df : DataFrame) : List WeekAgg :=
  List.insertionSort (fun a b => optLE a.wpm_std b.wpm_std)
    ((groupByKey (fun r => r.date / 7) df).map (fun p =>
      { week := p.1
        wpm_std := plStd (p.2.map Race.wpm)
        week_start := ((p.2.map Race.date).head?).getD 0 }))

structure ConsistencyVals where
  wpm_std : ℚ
  acc_std : ℚ
  wpm_cv : ℚ
  acc_cv : ℚ
  morning_consistency_pct : ℚ
deriving DecidableEq

def consistencyVals (df : DataFrame) : Option ConsistencyVals := do
  let wpm := df.map Race.wpm
  let acc := df.map Race.accuracy
  let wpm_std ← plStd wpm
  let acc_std ← plStd acc
  let mw ← plMean wpm
  let macc ← plMean acc
  let wpm_cv ← pyDiv wpm_std mw
  let acc_cv ← pyDiv acc_std macc
  let morning_races := df.filter (fun r => r.hour < 12)
  let morning_std := if morning_races.length > 10 then (plStd (morning_races.map Race.wpm)).getD 0 else wpm_std
  let morning_consistency_pct ←
    if morning_races.length > 10 then
      (pyDiv (wpm_std - morning_std) wpm_std).map (fun x => x * 100)
    else pure 0
  pure ⟨wpm_std, acc_std, wpm_cv, acc_cv, morning_consistency_pct⟩

def consistencySentences (df : DataFrame) (v : ConsistencyVals) : List String :=
  let wpm_consistency := max 0 (100 - v.wpm_cv * 100)
  let acc_consistency := max 0 (100 - v.acc_cv * 1000)
  let overall_consistency := (wpm_consistency + acc_consistency) / 2
  let weekly := weeklyStd df
  let steadiest_week : Option Int := (weekly[0]?).map WeekAgg.week_start
  let steadiest_std :=
    match weekly[0]? with
    | none => v.wpm_std
    | some w =>
      match w.wpm_std with
      | some s => if s = 0 then v.wpm_std else s
      | none => v.wpm_std
  let week_str := match steadiest_week with | some w => fmtDay w | none => "N/A"
  let morning_races := df.filter (fun r => r.hour < 12)
  let acc_var := v.acc_std * 100
  [s!"Typing consistency score: {fmt overall_consistency}/100",
   s!"Most consistent in accuracy (±{fmt acc_var}% variation)",
   "Speed varies more than accuracy day-to-day",
   s!"Your steadiest week: {week_str} (±{fmt steadiest_std} WPM)",
   "Consistency improves in longer practice sessions",
   if morning_races.length > 10 then
     s!"Morning sessions are {fmt v.morning_consistency_pct}% more consistent"
   else "Need more morning data for comparison"]

def calculate_consistency_insights (df : DataFrame) : Option (List String) :=
  (consistencyVals df).map (consistencySentences df)

/-! ### calculate_accuracy_by_rank_insights -/

structure RankAcc where
  rank : Int
  avg_accuracy : ℚ
  count : Nat
deriving DecidableEq

def rankAccuracy (df : DataFrame) : List RankAcc :=
  List.insertionSort (fun a b => a.rank ≤ b.rank)
    ((groupByKey Race.rank df).map (fun p =>
      { rank := p.1
        avg_accuracy := (plMean (p.2.map Race.accuracy)).getD 0
        count := p.2.length }))

/-- `low_acc_wins` of `calculate_accuracy_by_rank_insights`: wins with
accuracy below 0.90. -/
def low_acc_wins (df : DataFrame) : Nat :=
  (df.filter (fun r => r.rank = 1 ∧ r.accuracy < 90/100)).length

/-- `wins_with_high_acc` of `calculate_accuracy_by_rank_insights`: wins
with accuracy at least 0.93. -/
def wins_with_high_acc (df : DataFrame) : Nat :=
  (df.filter (fun r => r.rank = 1 ∧ 93/100 ≤ r.accuracy)).length

/-- `total_wins` of `calculate_accuracy_by_rank_insights`. -/
def total_wins (df : DataFrame) : Nat :=
  (df.filter (fun r => r.rank = 1)).length

structure AccRankVals where
  last_place_rank : Int
  last_place_acc : ℚ
deriving DecidableEq

def accRankVals (ra : List RankAcc) : Option AccRankVals := do
  let last_place_rank ← maxI (ra.map RankAcc.rank)
  let last_place_acc ← plMean ((ra.filter (fun g => g.rank = last_place_rank)).map RankAcc.avg_accuracy)
  pure ⟨last_place_rank, last_place_acc⟩

def accRankSentences (df : DataFrame) (ra : List RankAcc) (v : AccRankVals) : List String :=
  let fp := ra.filter (fun g => g.rank = 1)
  let first_place_acc := if fp.length > 0 then (plMean (fp.map RankAcc.avg_accuracy)).getD 0 else 0
  let sp := ra.filter (fun g => g.rank = 2)
  let second_place_acc := if sp.length > 0 then (plMean (sp.map RankAcc.avg_accuracy)).getD 0 else 0
  let whc := wins_with_high_acc df
  let tw := total_wins df
  let law := low_acc_wins df
  let accuracy_gap := (first_place_acc - v.last_place_acc) * 100
  let fp_pct := first_place_acc * 100
  let sp_pct := second_place_acc * 100
  let lp_pct := v.last_place_acc * 100
  [s!"1st place races require {fmt fp_pct}% average accuracy",
   s!"When accuracy drops below 90%, you rarely win ({law} exceptions)",
   s!"2nd place finishes: {fmt sp_pct}% accuracy needed",
   s!"Last place correlates with <{fmt lp_pct}% accuracy",
   s!"Accuracy gap: {fmt accuracy_gap}% between 1st and last place",
   s!"Winning accuracy threshold: 93% minimum ({whc}/{tw} wins above this)"]

def calculate_accuracy_by_rank_insights (df : DataFrame) : Option (List String) :=
  let ra := rankAccuracy df
  (accRankVals ra).map (accRankSentences df ra)

/-! ### calculate_cumulative_accuracy_insights -/

/-- The per-month mean-accuracy series, sorted by month. -/
def monthlyAcc (df : DataFrame) : List (Int × ℚ) :=
  List.insertionSort (fun a b : Int × ℚ => a.1 ≤ b.1)
    ((groupByKey Race.year_month df).map (fun p =>
      (p.1, (plMean (p.2.map Race.accuracy)).getD 0)))

/-- The biggest month-over-month accuracy jump (strictly larger than all
previous, starting from 0) and the month it happened in. -/
def biggestJump (ms : List (Int × ℚ)) : ℚ × Option Int :=
  (ms.zip ms.tail).foldl
    (fun p pr =>
      let j := (pr.2.2 - pr.1.2) * 100
      if j > p.1 then (j, some pr.2.1) else p)
    (0, none)

structure CumAccVals where
  early_acc : ℚ
  recent_acc : ℚ
  last_100_std : ℚ
  recent_q10 : ℚ
deriving DecidableEq

def cumAccVals (ds : DataFrame) : Option CumAccVals := do
  let k := min 50 (ds.length / 4)
  let early_races := ds.take k
  let recent_races := ds.drop (ds.length - k)
  let early_acc ← plMean (early_races.map Race.accuracy)
  let recent_acc ← plMean (recent_races.map Race.accuracy)
  let last_100 := if ds.length ≥ 100 then ds.drop (ds.length - 100) else ds
  let last_100_std ← plStd (last_100.map Race.accuracy)
  let recent_q10 ← plQuantile (recent_races.map Race.accuracy) (1/10)
  pure ⟨early_acc, recent_acc, last_100_std, recent_q10⟩

def cumAccSentences (ds : DataFrame) (v : CumAccVals) : List String :=
  let improvement := (v.recent_acc - v.early_acc) * 100
  let monthly := monthlyAcc ds
  let bj := if monthly.length ≥ 2 then biggestJump monthly else (improvement, none)
  let jump_str := match bj.2 with | some m => fmtMonth m | none => "Early progress"
  let start_pct := v.early_acc * 100
  let cur_pct := v.recent_acc * 100
  let plateau_race := (ds.length : Int) - 100
  let var_pct := v.last_100_std * 100
  let floor_pct := v.recent_q10 * 100
  let bjv := bj.1
  [s!"Your accuracy has improved {fmtSigned improvement}% over time",
   s!"Started at {fmt start_pct}%, now consistently hitting {fmt cur_pct}%",
   s!"Biggest accuracy jump: {jump_str} ({fmtSigned bjv}%)",
   s!"Most accurate recent 50 races: {fmt cur_pct}% average",
   if v.last_100_std < 2/100 then s!"Accuracy plateau reached at race #{plateau_race}"
   else s!"Still improving accuracy (±{fmt var_pct}% recent variation)",
   s!"Your accuracy rarely drops below {fmt floor_pct}% now"]

def calculate_cumulative_accuracy_insights (df : DataFrame) : Option (List String) :=
  let ds := sortByRaceNum df
  (cumAccVals ds).map (cumAccSentences ds)

/-! ### calculate_wpm_by_rank_insights -/

structure RankWpm where
  rank : Int
  avg_wpm : ℚ
  min_wpm : ℚ
  max_wpm : ℚ
  count : Nat
deriving DecidableEq

def rankWpmStats (df : DataFrame) : List RankWpm :=
  List.insertionSort (fun a b => a.rank ≤ b.rank)
    ((groupByKey Race.rank df).map (fun p =>
      { rank := p.1
        avg_wpm := (plMean (p.2.map Race.wpm)).getD 0
        min_wpm := (minQ (p.2.map Race.wpm)).getD 0
        max_wpm := (maxQ (p.2.map Race.wpm)).getD 0
        count := p.2.length }))

structure WpmRankVals where
  last_rank : Int
  last_place_avg : ℚ
  guarantee_threshold : ℚ
deriving DecidableEq

def wpmRankVals (df : DataFrame) (rw : List RankWpm) : Option WpmRankVals := do
  let last_rank ← maxI (rw.map RankWpm.rank)
  let last_place_avg ← plMean ((rw.filter (fun g => g.rank = last_rank)).map RankWpm.avg_wpm)
  let guarantee_threshold ← plQuantile ((df.filter (fun r => r.rank = 1)).map Race.wpm) (9/10)
  pure ⟨last_rank, last_place_avg, guarantee_threshold⟩

def wpmRankSentences (rw : List RankWpm) (v : WpmRankVals) : List String :=
  let fp := rw.filter (fun g => g.rank = 1)
  let first_place_avg := if fp.length > 0 then (plMean (fp.map RankWpm.avg_wpm)).getD 0 else 0
  let min_winning_speed := if fp.length > 0 then (plMean (fp.map RankWpm.min_wpm)).getD 0 else 0
  let sp := rw.filter (fun g => g.rank = 2)
  let second_place_avg := if sp.length > 0 then (plMean (sp.map RankWpm.avg_wpm)).getD 0 else 0
  let second_min := if sp.length > 0 then (plMean (sp.map RankWpm.min_wpm)).getD 0 else 0
  let second_max := if sp.length > 0 then (plMean (sp.map RankWpm.max_wpm)).getD 0 else 0
  let speed_gap := if second_place_avg > 0 then first_place_avg - second_place_avg else 0
  [s!"1st place average: {fmt first_place_avg} WPM needed",
   s!"Speed gap between 1st and 2nd: {fmt speed_gap} WPM",
   s!"Minimum winning speed in your races: {fmt min_winning_speed} WPM",
   s!"2nd place speed range: {fmt second_min}-{fmt second_max} WPM",
   s!"Last place average: {fmt v.last_place_avg} WPM",
   s!"To guarantee wins, maintain {fmt v.guarantee_threshold}+ WPM"]

def calculate_wpm_by_rank_insights (df : DataFrame) : Option (List String) :=
  let rw := rankWpmStats df
  (wpmRankVals df rw).map (wpmRankSentences rw)

/-! ### calculate_racers_impact_insights -/

structure RacersAgg where
  num_racers : Int
  avg_wpm : ℚ
  win_rate : ℚ
  race_count : Nat
deriving DecidableEq

def racersImpact (df : DataFrame) : List RacersAgg :=
  List.insertionSort (fun a b => a.num_racers ≤ b.num_racers)
    ((groupByKey Race.num_racers df).map (fun p =>
      { num_racers := p.1
        avg_wpm := (plMean (p.2.map Race.wpm)).getD 0
        win_rate := (plMean (p.2.map winQ)).getD 0
        race_count := p.2.length }))

structure RacersVals where
  optimal_opponents : Int
  optimal_wpm : ℚ
  best_win_opponents : Int
  best_win_rate : ℚ
deriving DecidableEq

def racersVals (ri : List RacersAgg) : Option RacersVals := do
  let bi ← argMaxQ (ri.map RacersAgg.avg_wpm)
  let bp ← ri[bi]?
  let wi ← argMaxQ (ri.map RacersAgg.win_rate)
  let wp ← ri[wi]?
  pure ⟨bp.num_racers - 1, bp.avg_wpm, wp.num_racers, wp.win_rate * 100⟩

def racersSentences (ri : List RacersAgg) (v : RacersVals) : List String :=
  let solo := ri.filter (fun g => g.num_racers = 1)
  let solo_wpm := if solo.length > 0 then (plMean (solo.map RacersAgg.avg_wpm)).getD 0 else 0
  let large_field := ri.filter (fun g => 5 ≤ g.num_racers)
  let large_field_wpm := if large_field.length > 0 then (plMean (large_field.map RacersAgg.avg_wpm)).getD 0 else v.optimal_wpm
  let h2h := ri.filter (fun g => g.num_racers = 2)
  let h2h_wpm := if h2h.length > 0 then (plMean (h2h.map RacersAgg.avg_wpm)).getD 0 else 0
  let h2h_win_rate := if h2h.length > 0 then ((plMean (h2h.map RacersAgg.win_rate)).getD 0) * 100 else 0
  let solo_drop := (v.optimal_wpm - solo_wpm) / solo_wpm * 100
  [s!"You perform better with {v.optimal_opponents} opponents ({fmt v.optimal_wpm} WPM)",
   if solo_wpm > 0 then
     s!"Solo races: {fmt solo_wpm} WPM ({fmtSigned solo_drop}% speed drop)"
   else "No solo race data available",
   s!"Large fields (5+ racers): {fmt large_field_wpm} WPM average",
   s!"Best competition level: {v.optimal_opponents} opponents exactly",
   s!"Win rate peaks at {v.best_win_opponents}-person races ({fmt v.best_win_rate}%)",
   if h2h_wpm > 0 then
     s!"Head-to-head races: {fmt h2h_win_rate}% win rate, {fmt h2h_wpm} WPM avg"
   else s!"Competitive racing: {fmt v.optimal_wpm} WPM with {v.optimal_opponents} opponents"]

def calculate_racers_impact_insights (df : DataFrame) : Option (List String) :=
  let ri := racersImpact df
  if ri.length = 0 then
    some ["Need race data with opponent counts", "Upload more race data",
          "Competitive analysis coming soon", "Practice with different field sizes",
          "Track your performance vs others", "Opponent impact analysis unlocks later"]
  else (racersVals ri).map (racersSentences ri)

/-! ### calculate_frequent_texts_insights -/

structure FreqTextAgg where
  text_id : Int
  attempts : Nat
  avg_wpm : ℚ
  first_wpm : ℚ
  last_wpm : ℚ
deriving DecidableEq

/-- The per-text frame of `calculate_frequent_texts_insights`, restricted
to texts with at least 5 attempts (groups in first-occurrence order, no
sort in the source). -/
def textAttempts (df : DataFrame) : List FreqTextAgg :=
  ((groupByKey Race.text_id df).map (fun p =>
    { text_id := p.1
      attempts := p.2.length
      avg_wpm := (plMean (p.2.map Race.wpm)).getD 0
      first_wpm := ((p.2.map Race.wpm).head?).getD 0
      last_wpm := ((p.2.map Race.wpm).getLast?).getD 0 })).filter
    (fun g => 5 ≤ g.attempts)

/-- The polars expression `(last_wpm - first_wpm) / first_wpm * 100`:
float column arithmetic, where division by zero yields `inf`/`NaN`
rather than raising (modelled by the junk value `0` of rational division;
the value only flows into rendered text, never into control flow). -/
def freqImprovementPct (g : FreqTextAgg) : ℚ :=
  (g.last_wpm - g.first_wpm) / g.first_wpm * 100

structure FreqTextVals where
  avg_improvement : ℚ
  best_improved_gain : ℚ
  familiar_avg : ℚ
  new_text_avg : ℚ
deriving DecidableEq

def freqTextVals (df : DataFrame) (ta : List FreqTextAgg) : Option FreqTextVals := do
  let imps := ta.map freqImprovementPct
  let avg_improvement ← plMean imps
  let bi ← argMaxQ imps
  let best ← imps[bi]?
  let ids := ta.map FreqTextAgg.text_id
  let familiar_texts := df.filter (fun r => r.text_id ∈ ids)
  let familiar_avg ← plMean (familiar_texts.map Race.wpm)
  let all_texts := (groupByKey Race.text_id df).map (fun p => ((p.2.map Race.wpm).head?).getD 0)
  let new_text_avg ← plMean all_texts
  pure ⟨avg_improvement, best, familiar_avg, new_text_avg⟩

def freqTextSentences (v : FreqTextVals) : List String :=
  [s!"Texts practiced 5+ times show {fmtSigned v.avg_improvement}% speed improvement",
   s!"Your most improved text gained {fmtSigned v.best_improved_gain} WPM",
   "Text familiarity peaks at 8-10 attempts",
   s!"New texts: {fmt v.new_text_avg} WPM vs familiar: {fmt v.familiar_avg} WPM",
   "You improve accuracy faster than speed on repeats",
   "Best learning curve: Short texts (100-150 chars)"]

def calculate_frequent_texts_insights (df : DataFrame) : Option (List String) :=
  let ta := textAttempts df
  if ta.length = 0 then
    some ["Need more repeated texts for analysis", "Try practicing same texts multiple times",
          "Familiarity improves performance", "5+ attempts needed per text",
          "Track your improvement on favorites", "Repetition builds muscle memory"]
  else (freqTextVals df ta).map freqTextSentences

/-! ### calculate_top_texts_distribution_insights -/

structure TTDAgg where
  text_id : Int
  attempts : Nat
  avg_wpm : ℚ
deriving DecidableEq

/-- The ten most-practiced texts (sort by attempts descending, stable,
then `head(10)`). -/
def topTenTexts (df : DataFrame) : List TTDAgg :=
  (List.insertionSort (fun a b => a.attempts ≥ b.attempts)
    ((groupByKey Race.text_id df).map (fun p =>
      { text_id := p.1
        attempts := p.2.length
        avg_wpm := (plMean (p.2.map Race.wpm)).getD 0 }))).take 10

structure TTDVals where
  avg_attempts : ℚ
  q75 : ℚ
  q25 : ℚ
  repeat_rate : ℚ
deriving DecidableEq

def ttdVals (df : DataFrame) (top : List TTDAgg) : Option TTDVals := do
  let avg_attempts ← plMean (top.map (fun g => (g.attempts : ℚ)))
  let q75 ← plQuantile (df.map Race.wpm) (3/4)
  let q25 ← plQuantile (df.map Race.wpm) (1/4)
  let unique_texts := (groupByKey Race.text_id df).length
  let total_races := df.length
  let frac ← pyDiv ((total_races : ℚ) - (unique_texts : ℚ)) (total_races : ℚ)
  pure ⟨avg_attempts, q75, q25, frac * 100⟩

def ttdSentences (df : DataFrame) (top : List TTDAgg) (v : TTDVals) : List String :=
  let high_perf_texts := top.filter (fun g => g.avg_wpm > v.q75)
  let low_perf_texts := top.filter (fun g => g.avg_wpm < v.q25)
  let high_perf_avg_attempts := if high_perf_texts.length > 0 then (plMean (high_perf_texts.map (fun g => (g.attempts : ℚ)))).getD 0 else 0
  let low_perf_avg_attempts := if low_perf_texts.length > 0 then (plMean (low_perf_texts.map (fun g => (g.attempts : ℚ)))).getD 0 else 0
  let most_practiced_wpm := if top.length > 0 then ((top[0]?).map TTDAgg.avg_wpm).getD 0 else 0
  let unique_texts := (groupByKey Race.text_id df).length
  [s!"Your top 10 texts average {fmt v.avg_attempts} attempts each",
   s!"Most practiced text averages {fmt most_practiced_wpm} WPM",
   if high_perf_texts.length > 0 then
     s!"High-performing texts: {fmt high_perf_avg_attempts} avg attempts"
   else "Practice high-performing texts more",
   if low_perf_texts.length > 0 then
     s!"Low-performing texts: {fmt low_perf_avg_attempts} avg attempts"
   else "Good performance across practiced texts",
   s!"Text repetition rate: {fmt v.repeat_rate}% of races are on repeated texts",
   s!"You've practiced {unique_texts} different text passages total"]

def calculate_top_texts_distribution_insights (df : DataFrame) : Option (List String) :=
  let top := topTenTexts df
  if top.length = 0 then
    some ["No text data available", "Upload race data with text info",
          "Text analysis coming soon", "Practice variety helps",
          "Track your favorites", "Different lengths challenge you"]
  else (ttdVals df top).map (ttdSentences df top)

/-! ### calculate_win_rate_after_win_insights -/

/-- The streak-collection scan of `calculate_win_rate_after_win_insights`
over the chronological win sequence (`win_streaks` / `current_streak`):
the loop runs over consecutive pairs starting at the second race; a
streak broken after a winning row is recorded as `current_streak + 1`
("+1 for the initial win"), a streak still open at the end is recorded
as `current_streak`. -/
def afterWinStreaks (wins : List Bool) : List Nat :=
  let st := (wins.zip wins.tail).foldl
    (fun (p : List Nat × Nat) pr =>
      if pr.1 then
        if pr.2 then (p.1, p.2 + 1)
        else if p.2 > 0 then (p.1 ++ [p.2 + 1], 0) else (p.1, 0)
      else if pr.2 then (p.1, 1)
      else if p.2 > 0 then (p.1 ++ [p.2], 0) else (p.1, 0))
    ([], 0)
  if st.2 > 0 then st.1 ++ [st.2] else st.1

/-- `max(win_streaks) if win_streaks else 1` — the "longest active
streak" the routine reports. -/
def after_win_max_streak (wins : List Bool) : Nat :=
  ((afterWinStreaks wins).max?).getD 1

def afterWinSentences (ds : DataFrame) (post_win : List Race) : List String :=
  let post_win_wpm := (plMean (post_win.map Race.wpm)).getD 0
  let post_win_acc := (plMean (post_win.map Race.accuracy)).getD 0
  let post_win_wins := ((plMean (post_win.map winQ)).getD 0) * 100
  let max_streak := after_win_max_streak (ds.map Race.win)
  let overall_avg_wpm := (plMean (ds.map Race.wpm)).getD 0
  let confidence_boost := post_win_wpm - overall_avg_wpm
  let post_loss := ((ds.zip ds.tail).filter (fun p => !p.1.win)).map Prod.snd
  let bounce_back_rate :=
    if post_loss.length > 0 then
      ((post_loss.filter (fun r => r.win)).length : ℚ) / (post_loss.length : ℚ) * 100
    else 0
  let overall_acc := (plMean (ds.map Race.accuracy)).getD 0
  let acc_pct := post_win_acc * 100
  let steadier := |confidence_boost|
  [s!"After winning, your next race speed: {fmt post_win_wpm} WPM",
   s!"Win streak probability: {fmt post_win_wins}% chance of back-to-back wins",
   if post_win_acc > overall_acc then
     s!"Post-victory accuracy: {fmt acc_pct}% (slight improvement)"
   else s!"Post-victory accuracy: {fmt acc_pct}% (stays consistent)",
   s!"Your longest active streak: {max_streak} consecutive wins",
   if confidence_boost > 0 then
     s!"Confidence boost: {fmtSigned confidence_boost} WPM average after victories"
   else s!"Post-win focus: {fmt steadier} WPM steadier performance",
   s!"After losses, you bounce back {fmt bounce_back_rate}% of the time"]

def calculate_win_rate_after_win_insights (df : DataFrame) : Option (List String) :=
  let ds := sortByRaceNum df
  let post_win := ((ds.zip ds.tail).filter (fun p => p.1.win)).map Prod.snd
  if post_win.length = 0 then
    some ["Need more wins to analyze streaks", "Win some races first!",
          "Post-victory analysis coming", "Keep practicing to win",
          "Streaks unlock after wins", "Victory momentum tracking soon"]
  else some (afterWinSentences ds post_win)

/-! ### calculate_fastest_slowest_insights -/

structure FastSlowVals where
  fastest_race : ℚ
  slowest_race : ℚ
  mean_wpm : ℚ
  std_wpm : ℚ
  top_5_pct_threshold : ℚ
  bottom_5_pct_threshold : ℚ
  p90 : ℚ
  p10 : ℚ
deriving DecidableEq

def fastSlowVals (wpm : List ℚ) : Option FastSlowVals := do
  let fastest ← maxQ wpm
  let slowest ← minQ wpm
  let mean ← plMean wpm
  let std ← plStd wpm
  let q95 ← plQuantile wpm (95/100)
  let q05 ← plQuantile wpm (5/100)
  let p90 ← plQuantile wpm (90/100)
  let p10 ← plQuantile wpm (10/100)
  pure ⟨fastest, slowest, mean, std, q95, q05, p90, p10⟩

def fastSlowSentences (wpm : List ℚ) (v : FastSlowVals) : List String :=
  let speed_range := v.fastest_race - v.slowest_race
  let top_5_pct_count := (wpm.filter (fun x => v.top_5_pct_threshold ≤ x)).length
  let bottom_5_pct_count := (wpm.filter (fun x => x ≤ v.bottom_5_pct_threshold)).length
  [s!"Personal record: {fmt v.fastest_race} WPM (your fastest race)",
   if v.slowest_race < v.mean_wpm - 2 * v.std_wpm then
     s!"Slowest race: {fmt v.slowest_race} WPM (early learning phase)"
   else s!"Slowest race: {fmt v.slowest_race} WPM",
   s!"Speed range spans {fmt speed_range} WPM difference",
   s!"Top 5% races all exceed {fmt v.top_5_pct_threshold} WPM ({top_5_pct_count} races)",
   s!"Your bottom 5% are below {fmt v.bottom_5_pct_threshold} WPM ({bottom_5_pct_count} races)",
   s!"Typical race falls within {fmt v.p10}-{fmt v.p90} WPM range"]

def calculate_fastest_slowest_insights (df : DataFrame) : Option (List String) :=
  let wpm := df.map Race.wpm
  (fastSlowVals wpm).map (fastSlowSentences wpm)

/-! ### calculate_time_between_races_insights -/

/-- The gap (minutes) carried by each consecutive pair of
datetime-sorted races. -/
def gapMinutes (p : Race × Race) : ℚ := (p.2.datetime_utc - p.1.datetime_utc) / 60

/-- The session-length scan: races within 5 minutes of the previous one
belong to the same session; only sessions of 2 or more races are
recorded (flushing the session still open at the end). -/
def sessionRaces (diffs : List ℚ) : List Nat :=
  let p := diffs.foldl
    (fun (p : List Nat × Nat) d =>
      if d ≤ 5 then (p.1, p.2 + 1)
      else if p.2 > 1 then (p.1 ++ [p.2], 1) else (p.1, 1))
    ([], 1)
  if p.2 > 1 then p.1 ++ [p.2] else p.1

/-- First-to-last WPM gain of each recorded session, slicing the sorted
frame by cumulative session lengths. -/
def sessionImprovements (ds : DataFrame) (sessions : List Nat) : List ℚ :=
  (sessions.foldl
    (fun (p : List ℚ × Nat) len =>
      let data := (ds.drop p.2).take len
      let q :=
        if data.length ≥ 2 then
          p.1 ++ [((data.map Race.wpm).getLast?).getD 0 - ((data.map Race.wpm).head?).getD 0]
        else p.1
      (q, p.2 + len))
    ([], 0)).1

def timeBetweenSentences (df : DataFrame) (ds : DataFrame) : List String :=
  let pairs := ds.zip ds.tail
  let diffs := pairs.map gapMinutes
  let avg_break_time := (plMean diffs).getD 0
  let quick_succession := (pairs.filter (fun p => gapMinutes p < 5)).map Prod.snd
  let optimal_breaks := (pairs.filter (fun p => 15 ≤ gapMinutes p ∧ gapMinutes p ≤ 30)).map Prod.snd
  let long_breaks := (pairs.filter (fun p => 120 ≤ gapMinutes p)).map Prod.snd
  let quick_avg_wpm := if quick_succession.length > 0 then (plMean (quick_succession.map Race.wpm)).getD 0 else 0
  let optimal_avg_wpm := if optimal_breaks.length > 0 then (plMean (optimal_breaks.map Race.wpm)).getD 0 else 0
  let long_break_avg_wpm := if long_breaks.length > 0 then (plMean (long_breaks.map Race.wpm)).getD 0 else 0
  let sessions := sessionRaces diffs
  let avg_session_length := if sessions.length > 0 then (plMean (sessions.map (fun n => (n : ℚ)))).getD 0 else 1
  let imps := sessionImprovements ds sessions
  let session_improvement :=
    if sessions.length > 0 then (if imps.length > 0 then (plMean imps).getD 0 else 0) else 0
  let daily := (groupByKey Race.date df).map (fun p =>
    (((p.2.map Race.wpm).head?).getD 0, (plMean (p.2.map Race.wpm)).getD 0))
  let first_race_avg := (plMean (daily.map Prod.fst)).getD 0
  let session_avg := (plMean (daily.map Prod.snd)).getD 0
  [s!"Average break between races: {fmt avg_break_time} minutes",
   if quick_avg_wpm > 0 then s!"Quick succession (<5 min gap): {fmt quick_avg_wpm} WPM average"
   else "No quick succession data",
   if long_break_avg_wpm > 0 then s!"Long breaks (2+ hours): {fmt long_break_avg_wpm} WPM return speed"
   else "No long break data",
   if optimal_avg_wpm > 0 then s!"Optimal rest time: 15-30 minutes between races ({fmt optimal_avg_wpm} WPM)"
   else "Optimal rest time: 15-30 minutes between races",
   if session_improvement ≠ 0 then s!"Same-session races improve by {fmtSigned session_improvement} WPM on average"
   else s!"Average session length: {fmt avg_session_length} races",
   s!"Daily first race: {fmt first_race_avg} WPM vs session average: {fmt session_avg} WPM"]

def calculate_time_between_races_insights (df : DataFrame) : Option (List String) :=
  let ds := sortByDatetime df
  if (ds.zip ds.tail).length = 0 then
    some ["Need more races for timing analysis", "Upload more race data",
          "Time patterns coming soon", "Practice consistency helps",
          "Session analysis unlocks later", "Keep racing to see patterns"]
  else some (timeBetweenSentences df ds)

/-! ### Dispatcher and fallback wrapper -/

def calculate_chart_insights (df : DataFrame) (chart_type : String) : Option (List String) :=
  if chart_type = "wpm-distribution" ∨ chart_type = "wmp-distribution" then
    calculate_wpm_distribution_insights df
  else if chart_type = "accuracy-distribution" then calculate_accuracy_distribution_insights df
  else if chart_type = "performance-over-time" then calculate_performance_over_time_insights df
  else if chart_type = "daily-performance" then calculate_daily_performance_insights df
  else if chart_type = "rolling-average" then calculate_rolling_average_insights df
  else if chart_type = "rank-distribution" then calculate_rank_distribution_insights df
  else if chart_type = "hourly-performance" then calculate_hourly_performance_insights df
  else if chart_type = "wpm-vs-accuracy" then calculate_wpm_vs_accuracy_insights df
  else if chart_type = "win-rate-monthly" then calculate_win_rate_monthly_insights df
  else if chart_type = "top-texts" then calculate_top_texts_insights df
  else if chart_type = "consistency-score" then calculate_consistency_insights df
  else if chart_type = "accuracy-by-rank" then calculate_accuracy_by_rank_insights df
  else if chart_type = "cumulative-accuracy" then calculate_cumulative_accuracy_insights df
  else if chart_type = "wpm-by-rank-boxplot" then calculate_wpm_by_rank_insights df
  else if chart_type = "racers-impact" then calculate_racers_impact_insights df
  else if chart_type = "frequent-texts-improvement" then calculate_frequent_texts_insights df
  else if chart_type = "top-texts-distribution" then calculate_top_texts_distribution_insights df
  else if chart_type = "win-rate-after-win" then calculate_win_rate_after_win_insights df
  else if chart_type = "fastest-slowest-races" then calculate_fastest_slowest_insights df
  else if chart_type = "time-between-races" then calculate_time_between_races_insights df
  else
    some ["Chart insights not yet implemented", s!"Showing data for {chart_type}",
          "More insights coming soon"]

/-- The `(sentences, ok)` pair returned by the engine. -/
structure InsightResult where
  insights : List String
  has_insights : Bool
deriving DecidableEq

/-- The fixed fallback list substituted when a routine raises. -/
def fallbackInsights (df : DataFrame) : List String :=
  ["Insufficient data for detailed analysis", s!"Showing {df.length} races",
   "Upload more data for insights"]

def calculate_insights_with_fallback (df : DataFrame) (chart_type : String) : InsightResult :=
  match calculate_chart_insights df chart_type with
  | some insights => ⟨insights, true⟩
  | none => ⟨fallbackInsights df, false⟩

/-- The view identifiers recognized by the `if/elif` chain of
`calculate_chart_insights` (including the accepted misspelling
`wmp-distribution`). -/
def knownViews : List String :=
  ["wpm-distribution", "wmp-distribution", "accuracy-distribution", "performance-over-time",
   "daily-performance", "rolling-average", "rank-distribution", "hourly-performance",
   "wpm-vs-accuracy", "win-rate-monthly", "top-texts", "consistency-score", "accuracy-by-rank",
   "cumulative-accuracy", "wpm-by-rank-boxplot", "racers-impact", "frequent-texts-improvement",
   "top-texts-distribution", "win-rate-after-win", "fastest-slowest-races", "time-between-races"]

/-! ### Rest-interval bucketing of the `time-between-races` chart (main.py) -/

def binLabels : List String :=
  ["0-1h", "1-3h", "3-6h", "6-12h", "12-24h", "24-48h", "48h-1wk", "1wk+"]

/-- `pd.cut` of a gap (in hours) over the bin edges
`[0, 1, 3, 6, 12, 24, 48, 168, inf]` with pandas' default right-closed
intervals `(lo, hi]`; values at or below 0 (including the `fillna(0)`
first row) fall in no bucket. -/
def timeBinOf (x : ℚ) : Option String :=
  if 0 < x ∧ x ≤ 1 then some "0-1h"
  else if 1 < x ∧ x ≤ 3 then some "1-3h"
  else if 3 < x ∧ x ≤ 6 then some "3-6h"
  else if 6 < x ∧ x ≤ 12 then some "6-12h"
  else if 12 < x ∧ x ≤ 24 then some "12-24h"
  else if 24 < x ∧ x ≤ 48 then some "24-48h"
  else if 48 < x ∧ x ≤ 168 then some "48h-1wk"
  else if 168 < x then some "1wk+"
  else none

structure TimeBinStat where
  time_bin : String
  avg_wpm : ℚ
  std_wpm : Option ℚ
  count : Nat
deriving DecidableEq

/-- The `time-between-races` chart aggregation of `main.py`: the gap in
hours carried by each datetime-sorted race (first row 0 via `fillna`),
bucketed by `timeBinOf` (`observed=False` keeps every label), WPM
mean/count/std per bucket (the source's `.round(2)` display rounding is
abstracted), and buckets with fewer than 5 samples dropped. -/
def time_wpm_stats (df : DataFrame) : List TimeBinStat :=
  let ds := sortByDatetime df
  let diffs : List ℚ :=
    0 :: (ds.zip ds.tail).map (fun p => (p.2.datetime_utc - p.1.datetime_utc) / 3600)
  let rows := ds.zip diffs
  (binLabels.map (fun lab =>
    let grp := rows.filter (fun p => timeBinOf p.2 = some lab)
    { time_bin := lab
      avg_wpm := (plMean (grp.map (fun p => p.1.wpm))).getD 0
      std_wpm := plStd (grp.map (fun p => p.1.wpm))
      count := grp.length })).filter (fun s => 5 ≤ s.count)

/-! ### Small concrete datasets (used to instantiate the theorems) -/

def sampleRace : Race :=
  { race_num := 1, wpm := 60, accuracy := 95/100, rank := 1, num_racers := 2, text_id := 1,
    datetime_utc := 0, date := 0, hour := 10, year_month := 0, win := true }

def sampleRace2 : Race :=
  { race_num := 2, wpm := 80, accuracy := 9/10, rank := 2, num_racers := 3, text_id := 1,
    datetime_utc := 3600, date := 0, hour := 11, year_month := 0, win := false }

def sampleDf : DataFrame := [sampleRace]

def sampleDf2 : DataFrame := [sampleRace, sampleRace2]

/-- `sampleDf2` with its rows swapped. -/
def sampleDf2R : DataFrame := [sampleRace2, sampleRace]

/-- Six races half an hour apart at a constant 80 WPM. -/
def sampleDf6 : DataFrame :=
  (List.range 6).map (fun i =>
    { race_num := (i : Int) + 1, wpm := 80, accuracy := 1, rank := 1, num_racers := 2,
      text_id := 1, datetime_utc := 1800 * (i : ℚ), date := 0, hour := 0, year_month := 0,
      win := true })

/-! ## Basic lemmas about the polars primitives -/

theorem plMean_of_ne_nil {l : List ℚ} (h : l ≠ []) :
    plMean l = some (l.sum / l.length) := by
  unfold plMean
  rw [if_neg (by simpa using h)]

theorem plMean_isSome_of_ne_nil {l : List ℚ} (h : l ≠ []) : (plMean l).isSome := by
  rw [plMean_of_ne_nil h]; rfl

theorem maxI_mem {l : List Int} {a : Int} (h : maxI l = some a) : a ∈ l := by
  induction l with
  | nil => simp [maxI] at h
  | cons x xs ih =>
    unfold maxI at h ih
    rw [List.foldr_cons] at h
    cases hx : xs.foldr maxStepI none with
    | none => rw [hx] at h; simp [maxStep, maxStepI] at h; simp [h]
    | some y =>
      rw [hx] at h
      simp only [maxStepI, Option.some.injEq] at h
      rcases max_choice x y with hm | hm <;> rw [hm] at h
      · simp [← h]
      · exact List.mem_cons_of_mem _ (ih (h ▸ hx))

/-! ## Sentence-count lemmas (one per routine) -/

theorem len_wpm_distribution {df : DataFrame} {l : List String}
    (h : calculate_wpm_distribution_insights df = some l) : l.length = 6 := by
  obtain ⟨v, -, rfl⟩ := Option.map_eq_some'.mp h
  rfl

theorem len_accuracy_distribution {df : DataFrame} {l : List String}
    (h : calculate_accuracy_distribution_insights df = some l) : l.length = 6 := by
  obtain ⟨v, -, rfl⟩ := Option.map_eq_some'.mp h
  rfl

theorem len_performance_over_time {df : DataFrame} {l : List String}
    (h : calculate_performance_over_time_insights df = some l) : l.length = 6 := by
  simp only [calculate_performance_over_time_insights] at h
  split at h
  · cases h; rfl
  · obtain ⟨v, -, rfl⟩ := Option.map_eq_some'.mp h
    rfl

theorem len_daily_performance {df : DataFrame} {l : List String}
    (h : calculate_daily_performance_insights df = some l) : l.length = 6 := by
  obtain ⟨v, -, rfl⟩ := Option.map_eq_some'.mp h
  rfl

theorem len_rolling_average {df : DataFrame} {l : List String}
    (h : calculate_rolling_average_insights df = some l) : l.length = 6 := by
  simp only [calculate_rolling_average_insights] at h
  split at h
  · obtain ⟨v, -, rfl⟩ := Option.map_eq_some'.mp h
    rfl
  · obtain ⟨v, -, rfl⟩ := Option.map_eq_some'.mp h
    rfl

theorem len_rank_distribution {df : DataFrame} {l : List String}
    (h : calculate_rank_distribution_insights df = some l) : l.length = 6 := by
  obtain ⟨v, -, rfl⟩ := Option.map_eq_some'.mp h
  rfl

theorem len_hourly_performance {df : DataFrame} {l : List String}
    (h : calculate_hourly_performance_insights df = some l) : l.length = 6 := by
  obtain ⟨v, -, rfl⟩ := Option.map_eq_some'.mp h
  rfl

theorem len_wpm_vs_accuracy {df : DataFrame} {l : List String}
    (h : calculate_wpm_vs_accuracy_insights df = some l) : l.length = 6 := by
  obtain ⟨v, -, rfl⟩ := Option.map_eq_some'.mp h
  rfl

theorem len_win_rate_monthly {df : DataFrame} {l : List String}
    (h : calculate_win_rate_monthly_insights df = some l) : l.length = 6 := by
  simp only [calculate_win_rate_monthly_insights] at h
  split at h
  · cases h; rfl
  · obtain ⟨v, -, rfl⟩ := Option.map_eq_some'.mp h
    rfl

theorem len_top_texts {df : DataFrame} {l : List String}
    (h : calculate_top_texts_insights df = some l) : l.length = 6 := by
  simp only [calculate_top_texts_insights] at h
  split at h
  · cases h; rfl
  · obtain ⟨v, -, rfl⟩ := Option.map_eq_some'.mp h
    rfl

theorem len_consistency {df : DataFrame} {l : List String}
    (h : calculate_consistency_insights df = some l) : l.length = 6 := by
  obtain ⟨v, -, rfl⟩ := Option.map_eq_some'.mp h
  rfl

theorem len_accuracy_by_rank {df : DataFrame} {l : List String}
    (h : calculate_accuracy_by_rank_insights df = some l) : l.length = 6 := by
  obtain ⟨v, -, rfl⟩ := Option.map_eq_some'.mp h
  rfl

theorem len_cumulative_accuracy {df : DataFrame} {l : List String}
    (h : calculate_cumulative_accuracy_insights df = some l) : l.length = 6 := by
  obtain ⟨v, -, rfl⟩ := Option.map_eq_some'.mp h
  rfl

theorem len_wpm_by_rank {df : DataFrame} {l : List String}
    (h : calculate_wpm_by_rank_insights df = some l) : l.length = 6 := by
  obtain ⟨v, -, rfl⟩ := Option.map_eq_some'.mp h
  rfl

theorem len_racers_impact {df : DataFrame} {l : List String}
    (h : calculate_racers_impact_insights df = some l) : l.length = 6 := by
  simp only [calculate_racers_impact_insights] at h
  split at h
  · cases h; rfl
  · obtain ⟨v, -, rfl⟩ := Option.map_eq_some'.mp h
    rfl

theorem len_frequent_texts {df : DataFrame} {l : List String}
    (h : calculate_frequent_texts_insights df = some l) : l.length = 6 := by
  simp only [calculate_frequent_texts_insights] at h
  split at h
  · cases h; rfl
  · obtain ⟨v, -, rfl⟩ := Option.map_eq_some'.mp h
    rfl

theorem len_top_texts_distribution {df : DataFrame} {l : List String}
    (h : calculate_top_texts_distribution_insights df = some l) : l.length = 6 := by
  simp only [calculate_top_texts_distribution_insights] at h
  split at h
  · cases h; rfl
  · obtain ⟨v, -, rfl⟩ := Option.map_eq_some'.mp h
    rfl

set_option maxHeartbeats 1000000 in
theorem len_win_rate_after_win {df : DataFrame} {l : List String}
    (h : calculate_win_rate_after_win_insights df = some l) : l.length = 6 := by
  simp only [calculate_win_rate_after_win_insights] at h
  split at h
  · cases h; rfl
  · cases h; rfl

theorem len_fastest_slowest {df : DataFrame} {l : List String}
    (h : calculate_fastest_slowest_insights df = some l) : l.length = 6 := by
  obtain ⟨v, -, rfl⟩ := Option.map_eq_some'.mp h
  rfl

theorem len_time_between_races {df : DataFrame} {l : List String}
    (h : calculate_time_between_races_insights df = some l) : l.length = 6 := by
  simp only [calculate_time_between_races_insights] at h
  split at h
  · cases h; rfl
  · cases h; rfl

/-! ## Dispatcher lemmas -/

/-- A view identifier outside `knownViews` falls through the whole
`if/elif` chain to the placeholder branch. -/
theorem chart_insights_unknown (df : DataFrame) (ct : String) (h : ct ∉ knownViews) :
    calculate_chart_insights df ct =
      some ["Chart insights not yet implemented", s!"Showing data for {ct}",
            "More insights coming soon"] := by
  simp only [knownViews, List.mem_cons, List.not_mem_nil, or_false] at h
  push_neg at h
  obtain ⟨h1, h2, h3, h4, h5, h6, h7, h8, h9, h10, h11, h12, h13, h14, h15, h16, h17, h18,
    h19, h20, h21⟩ := h
  unfold calculate_chart_insights
  rw [if_neg (by simp [h1, h2]), if_neg h3, if_neg h4, if_neg h5, if_neg h6, if_neg h7,
    if_neg h8, if_neg h9, if_neg h10, if_neg h11, if_neg h12, if_neg h13, if_neg h14,
    if_neg h15, if_neg h16, if_neg h17, if_neg h18, if_neg h19, if_neg h20, if_neg h21]

set_option maxHeartbeats 2000000 in
/-- A successful dispatch on a known view has 6 sentences. -/
theorem chart_insights_known_length (df : DataFrame) (ct : String) (l : List String)
    (hk : ct ∈ knownViews) (h : calculate_chart_insights df ct = some l) :
    l.length = 6 := by
  simp only [knownViews, List.mem_cons, List.not_mem_nil, or_false] at hk
  rcases hk with rfl | rfl | rfl | rfl | rfl | rfl | rfl | rfl | rfl | rfl | rfl | rfl | rfl |
    rfl | rfl | rfl | rfl | rfl | rfl | rfl | rfl
  · exact len_wpm_distribution h
  · exact len_wpm_distribution h
  · exact len_accuracy_distribution h
  · exact len_performance_over_time h
  · exact len_daily_performance h
  · exact len_rolling_average h
  · exact len_rank_distribution h
  · exact len_hourly_performance h
  · exact len_wpm_vs_accuracy h
  · exact len_win_rate_monthly h
  · exact len_top_texts h
  · exact len_consistency h
  · exact len_accuracy_by_rank h
  · exact len_cumulative_accuracy h
  · exact len_wpm_by_rank h
  · exact len_racers_impact h
  · exact len_frequent_texts h
  · exact len_top_texts_distribution h
  · exact len_win_rate_after_win h
  · exact len_fastest_slowest h
  · exact len_time_between_races h

/-- Every successful result of the dispatcher has 6 sentences (a known
per-view routine) or 3 (the unknown-view placeholder). -/
theorem chart_insights_length (df : DataFrame) (ct : String) (l : List String)
    (h : calculate_chart_insights df ct = some l) : l.length = 6 ∨ l.length = 3 := by
  by_cases hk : ct ∈ knownViews
  · exact Or.inl (chart_insights_known_length df ct l hk h)
  · rw [chart_insights_unknown df ct hk] at h
    cases h
    exact Or.inr rfl

/-! ## Permutation invariance of the histogram mode bin -/

theorem minQ_perm {l lp : List ℚ} (h : l.Perm lp) : minQ l = minQ lp := by
  induction h with
  | nil => rfl
  | cons x _ ih =>
    unfold minQ at ih ⊢
    rw [List.foldr_cons, List.foldr_cons, ih]
  | swap x y t =>
    unfold minQ
    rw [List.foldr_cons, List.foldr_cons, List.foldr_cons, List.foldr_cons]
    cases t.foldr minStep none with
    | none => simp [minStep, min_comm]
    | some z => simp [minStep, min_left_comm]
  | trans _ _ ih1 ih2 => exact ih1.trans ih2

theorem maxQ_perm {l lp : List ℚ} (h : l.Perm lp) : maxQ l = maxQ lp := by
  induction h with
  | nil => rfl
  | cons x _ ih =>
    unfold maxQ at ih ⊢
    rw [List.foldr_cons, List.foldr_cons, ih]
  | swap x y t =>
    unfold maxQ
    rw [List.foldr_cons, List.foldr_cons, List.foldr_cons, List.foldr_cons]
    cases t.foldr maxStep none with
    | none => simp [maxStep, max_comm]
    | some z => simp [maxStep, max_left_comm]
  | trans _ _ ih1 ih2 => exact ih1.trans ih2

theorem npHistogram_perm {l lp : List ℚ} (h : l.Perm lp) (bins : Nat) :
    npHistogram l bins = npHistogram lp bins := by
  have hf : ∀ p : ℚ → Bool, (l.filter p).length = (lp.filter p).length :=
    fun p => (h.filter p).length_eq
  simp only [npHistogram, minQ_perm h, maxQ_perm h]
  congr 1
  apply List.map_congr_left
  intro i _
  split
  · exact hf _
  · exact hf _

/-! ## Sorting and grouping lemmas -/

theorem sortByRaceNum_length (df : DataFrame) : (sortByRaceNum df).length = df.length :=
  List.length_insertionSort _ df

theorem sortByRaceNum_perm (df : DataFrame) : (sortByRaceNum df).Perm df :=
  List.perm_insertionSort _ df

theorem monthlyAvg_length (df : DataFrame) :
    (monthlyAvg df).length = (dedupKeys (df.map Race.year_month)).length := by
  unfold monthlyAvg groupByKey
  rw [List.length_insertionSort, List.length_map, List.length_map]

theorem monthlyWins_length (df : DataFrame) :
    (monthlyWins df).length = (dedupKeys (df.map Race.year_month)).length := by
  unfold monthlyWins groupByKey
  rw [List.length_insertionSort, List.length_map, List.length_map]

theorem foldl_dedup_ne_nil {β : Type} [DecidableEq β] (l : List β) (acc : List β)
    (h : acc ≠ []) :
    l.foldl (fun a k => if k ∈ a then a else a ++ [k]) acc ≠ [] := by
  induction l generalizing acc with
  | nil => exact h
  | cons x xs ih =>
    rw [List.foldl_cons]
    apply ih
    split
    · exact h
    · simp

theorem dedupKeys_ne_nil {β : Type} [DecidableEq β] {l : List β} (h : l ≠ []) :
    dedupKeys l ≠ [] := by
  cases l with
  | nil => exact absurd rfl h
  | cons x xs =>
    unfold dedupKeys
    rw [List.foldl_cons]
    apply foldl_dedup_ne_nil
    simp

theorem maxI_isSome {l : List Int} (h : l ≠ []) : (maxI l).isSome := by
  cases l with
  | nil => exact absurd rfl h
  | cons x xs =>
    unfold maxI
    rw [List.foldr_cons]
    cases xs.foldr maxStepI none <;> simp [maxStepI]

theorem rankAccuracy_ne_nil {df : DataFrame} (h : df ≠ []) : rankAccuracy df ≠ [] := by
  have hlen : (rankAccuracy df).length = (dedupKeys (df.map Race.rank)).length := by
    unfold rankAccuracy groupByKey
    rw [List.length_insertionSort, List.length_map, List.length_map]
  intro h0
  have hd : dedupKeys (df.map Race.rank) ≠ [] :=
    dedupKeys_ne_nil (fun hm => h (List.map_eq_nil_iff.mp hm))
  rw [h0] at hlen
  exact hd (List.length_eq_zero.mp hlen.symm)

/-! ## Claim theorems -/

/-- C2: evaluation of the two win-streak scans on the spec's test
sequences.  The scan of `calculate_win_rate_monthly_insights`
(`maxWinStreak`) yields the true maximum run of consecutive wins, 3 on
`[1,1,0,1,1,1,0]` and 2 (flushed at the end) on `[1,1,0,1,1]`.  The scan
of `calculate_win_rate_after_win_insights` (`after_win_max_streak`)
yields 2 on `[1,1,0,1,1]` but 4 — not 3 — on `[1,1,0,1,1,1,0]`: its
"+1 for the initial win" adjustment double-counts the first win of a
streak that does not start at the first race. -/
theorem C2_win_streak_scans :
    maxWinStreak [true, true, false, true, true, true, false] = 3 ∧
    maxWinStreak [true, true, false, true, true] = 2 ∧
    after_win_max_streak [true, true, false, true, true] = 2 ∧
    after_win_max_streak [true, true, false, true, true, true, false] = 4 := by
  decide

/-- C9: the misspelled view identifier `wmp-distribution` is dispatched
to the same routine as `wpm-distribution`, so the public wrapper returns
the identical sentence list and success flag for both. -/
theorem C9_wmp_alias (df : DataFrame) :
    calculate_insights_with_fallback df "wmp-distribution" =
      calculate_insights_with_fallback df "wpm-distribution" := rfl

/-- C6: the reported WPM-distribution mode range (15 equal-width bins
over the full value range, first bin with the highest count) is
invariant under any permutation of the dataset's rows, both as the
`modeRangeOfWpm` value and as sentence 1 of the routine's output. -/
theorem C6_mode_bin_permutation (df dg : DataFrame) (h : df.Perm dg) :
    modeRangeOfWpm (df.map Race.wpm) = modeRangeOfWpm (dg.map Race.wpm) ∧
    ∀ l lg, calculate_wpm_distribution_insights df = some l →
      calculate_wpm_distribution_insights dg = some lg → l[1]? = lg[1]? := by
  have hw : (df.map Race.wpm).Perm (dg.map Race.wpm) := h.map Race.wpm
  have hm : modeRangeOfWpm (df.map Race.wpm) = modeRangeOfWpm (dg.map Race.wpm) := by
    unfold modeRangeOfWpm
    rw [npHistogram_perm hw 15]
  refine ⟨hm, ?_⟩
  intro l lg h1 h2
  obtain ⟨v, -, rfl⟩ := Option.map_eq_some'.mp h1
  obtain ⟨w, -, rfl⟩ := Option.map_eq_some'.mp h2
  have e1 : (wpmDistSentences (df.map Race.wpm) v)[1]? =
      some s!"Most races fall between {modeRangeOfWpm (df.map Race.wpm)} WPM range" := rfl
  have e2 : (wpmDistSentences (dg.map Race.wpm) w)[1]? =
      some s!"Most races fall between {modeRangeOfWpm (dg.map Race.wpm)} WPM range" := rfl
  rw [e1, e2, hm]

/-- Witness for C6 at a concrete two-row dataset and its swap. -/
theorem C6_mode_bin_permutation_witness :
    modeRangeOfWpm (sampleDf2.map Race.wpm) = modeRangeOfWpm (sampleDf2R.map Race.wpm) :=
  (C6_mode_bin_permutation sampleDf2 sampleDf2R
    (List.Perm.swap sampleRace2 sampleRace [])).1

/-- C5: an unrecognized view identifier returns the fixed 3-sentence
placeholder (naming the view) with the success flag `true`; it never
takes the `ok = false` fallback path. -/
theorem C5_unknown_view (df : DataFrame) (ct : String) (h : ct ∉ knownViews) :
    calculate_insights_with_fallback df ct =
      ⟨["Chart insights not yet implemented", s!"Showing data for {ct}",
        "More insights coming soon"], true⟩ := by
  unfold calculate_insights_with_fallback
  rw [chart_insights_unknown df ct h]

/-- Witness for C5 at a concrete unknown view identifier. -/
theorem C5_unknown_view_witness :
    calculate_insights_with_fallback [] "mystery-view" =
      ⟨["Chart insights not yet implemented", "Showing data for mystery-view",
        "More insights coming soon"], true⟩ :=
  (C5_unknown_view [] "mystery-view" (by decide)).trans (by with_unfolding_all rfl)

/-- C7: a gap of exactly 24.0 hours falls in exactly one bucket — the
`12-24h` one, the intervals being right-closed `(lo, hi]` over the edges
`[0,1,3,6,12,24,48,168,inf)` — and every bucket kept in the final
comparison has at least 5 samples. -/
theorem C7_rest_interval_buckets (df : DataFrame) :
    timeBinOf 24 = some "12-24h" ∧ ∀ s ∈ time_wpm_stats df, 5 ≤ s.count := by
  refine ⟨by decide, ?_⟩
  intro s hs
  simp only [time_wpm_stats] at hs
  exact of_decide_eq_true (List.mem_filter.mp hs).2

/-- Witness for C7: on six races 30 minutes apart the single surviving
bucket `0-1h` holds 5 samples. -/
theorem C7_rest_interval_buckets_witness :
    5 ≤ (TimeBinStat.mk "0-1h" 80 (some 0) 5).count :=
  (C7_rest_interval_buckets sampleDf6).2 ⟨"0-1h", 80, some 0, 5⟩
    (by with_unfolding_all decide)

/-- C1: the engine wrapper is a total function returning a non-empty
sentence list and a flag (it cannot raise, the `try/except` catching
every routine exception), and whenever the chosen routine raises —
`calculate_chart_insights df ct = none` in this embedding — the result
is exactly the 3-sentence fallback (`fallbackInsights`, whose second
sentence reports the row count) with `has_insights = false`; no partial
routine output is ever returned. -/
theorem C1_engine_fallback (df : DataFrame) (ct : String) :
    (calculate_insights_with_fallback df ct).insights ≠ [] ∧
    (calculate_chart_insights df ct = none →
      calculate_insights_with_fallback df ct = ⟨fallbackInsights df, false⟩) := by
  constructor
  · unfold calculate_insights_with_fallback
    cases hc : calculate_chart_insights df ct with
    | none =>
      show fallbackInsights df ≠ []
      simp [fallbackInsights]
    | some l =>
      show l ≠ []
      have hlen := chart_insights_length df ct l hc
      have hpos : 0 < l.length := by rcases hlen with h6 | h3 <;> omega
      exact List.length_pos.mp hpos
  · intro hc
    unfold calculate_insights_with_fallback
    rw [hc]

/-- Witness for C1: on the empty dataset the `wpm-distribution` routine
raises (the mean of an empty column is null), and the wrapper returns
exactly the fallback with `ok = false`. -/
theorem C1_engine_fallback_witness :
    calculate_insights_with_fallback [] "wpm-distribution" = ⟨fallbackInsights [], false⟩ :=
  (C1_engine_fallback [] "wpm-distribution").2 (by with_unfolding_all rfl)

/-- C10: sentence-count invariant.  A known view that returns normally
returns exactly 6 sentences; an unknown view returns the 3-sentence
placeholder; and every wrapper result therefore has 6 sentences
(success) or 3 (placeholder or fallback). -/
theorem C10_sentence_counts (df : DataFrame) (ct : String) (l : List String) :
    (ct ∈ knownViews → calculate_chart_insights df ct = some l → l.length = 6) ∧
    (ct ∉ knownViews → calculate_chart_insights df ct = some l → l.length = 3) ∧
    ((calculate_insights_with_fallback df ct).insights.length = 6 ∨
      (calculate_insights_with_fallback df ct).insights.length = 3) := by
  refine ⟨fun hk h => chart_insights_known_length df ct l hk h, fun hk h => ?_, ?_⟩
  · rw [chart_insights_unknown df ct hk] at h
    cases h
    rfl
  · unfold calculate_insights_with_fallback
    cases hc : calculate_chart_insights df ct with
    | none => exact Or.inr rfl
    | some r =>
      show r.length = 6 ∨ r.length = 3
      exact chart_insights_length df ct r hc

/-- C4: on a non-empty dataset spanning fewer than 2 distinct
year-month groups, both `performance-over-time` and `win-rate-monthly`
return their specific fixed "need more data" sentence lists directly
(no exception), so the dispatcher reports `ok = true` for both views. -/
theorem C4_under_two_months (df : DataFrame) (_hne : df ≠ [])
    (h : (dedupKeys (df.map Race.year_month)).length < 2) :
    calculate_performance_over_time_insights df =
      some ["Need at least 2 months of data", "Current month shown", "Keep racing for trends",
            "Upload more race data", "Monthly trends coming soon",
            "Practice consistently for insights"] ∧
    calculate_win_rate_monthly_insights df =
      some ["Need multiple months", "Current month shown", "Keep racing for trends",
            "Upload more race data", "Monthly trends coming soon", "Practice consistently"] ∧
    calculate_insights_with_fallback df "performance-over-time" =
      ⟨["Need at least 2 months of data", "Current month shown", "Keep racing for trends",
        "Upload more race data", "Monthly trends coming soon",
        "Practice consistently for insights"], true⟩ ∧
    calculate_insights_with_fallback df "win-rate-monthly" =
      ⟨["Need multiple months", "Current month shown", "Keep racing for trends",
        "Upload more race data", "Monthly trends coming soon", "Practice consistently"],
        true⟩ := by
  have hp : calculate_performance_over_time_insights df =
      some ["Need at least 2 months of data", "Current month shown", "Keep racing for trends",
            "Upload more race data", "Monthly trends coming soon",
            "Practice consistently for insights"] := by
    simp only [calculate_performance_over_time_insights]
    rw [if_pos (show (monthlyAvg df).length < 2 by rw [monthlyAvg_length]; exact h)]
  have hw : calculate_win_rate_monthly_insights df =
      some ["Need multiple months", "Current month shown", "Keep racing for trends",
            "Upload more race data", "Monthly trends coming soon", "Practice consistently"] := by
    simp only [calculate_win_rate_monthly_insights]
    rw [if_pos (show (monthlyWins df).length < 2 by rw [monthlyWins_length]; exact h)]
  refine ⟨hp, hw, ?_, ?_⟩
  · unfold calculate_insights_with_fallback
    have h2 : calculate_chart_insights df "performance-over-time" =
        some ["Need at least 2 months of data", "Current month shown", "Keep racing for trends",
              "Upload more race data", "Monthly trends coming soon",
              "Practice consistently for insights"] := hp
    rw [h2]
  · unfold calculate_insights_with_fallback
    have h2 : calculate_chart_insights df "win-rate-monthly" =
        some ["Need multiple months", "Current month shown", "Keep racing for trends",
              "Upload more race data", "Monthly trends coming soon",
              "Practice consistently"] := hw
    rw [h2]

/-- C3: on a non-empty dataset with n < 100 rows the rolling-average
routine returns (no exception) the partial-data response: sentence 2
reports exactly 100 − n more races needed, sentence 1 reports the mean
WPM of all n rows as the current average, and sentence 4 reports the
mean WPM of the last min(50, n) rows in `race_num` order. -/
theorem C3_rolling_under_100 (df : DataFrame) (hne : df ≠ []) (hlt : df.length < 100) :
    calculate_rolling_average_insights df =
      some ["Current average: " ++ fmt ((df.map Race.wpm).sum / (df.length : ℚ)) ++ " WPM",
            "Need " ++ toString (100 - df.length) ++
              " more races for 100-race rolling average",
            "Keep racing to unlock rolling insights",
            "Recent " ++ toString (min 50 df.length) ++ " races: " ++
              fmt ((((sortByRaceNum df).drop (df.length - min 50 df.length)).map
                Race.wpm).sum / ((min 50 df.length : Nat) : ℚ)) ++ " WPM",
            "Progress: " ++ toString df.length ++ "/100 races completed",
            "Rolling analysis unlocks at 100 races"] := by
  have hpos : 0 < df.length := List.length_pos.mpr hne
  have hminle : min 50 df.length ≤ df.length := min_le_right 50 df.length
  have hminpos : 0 < min 50 df.length := lt_min (by norm_num) hpos
  have hds : (sortByRaceNum df).length = df.length := sortByRaceNum_length df
  have hmapne : (sortByRaceNum df).map Race.wpm ≠ [] := by
    intro h0
    have : ((sortByRaceNum df).map Race.wpm).length = 0 := by rw [h0]; rfl
    rw [List.length_map, hds] at this
    omega
  have hsum : ((sortByRaceNum df).map Race.wpm).sum = (df.map Race.wpm).sum :=
    ((sortByRaceNum_perm df).map Race.wpm).sum_eq
  have hm1 : plMean ((sortByRaceNum df).map Race.wpm) =
      some ((df.map Race.wpm).sum / (df.length : ℚ)) := by
    rw [plMean_of_ne_nil hmapne, List.length_map, hds, hsum]
  have hRlen : ((sortByRaceNum df).drop (df.length - min 50 df.length)).length =
      min 50 df.length := by
    rw [List.length_drop, hds]
    omega
  have hRne : ((sortByRaceNum df).drop (df.length - min 50 df.length)).map Race.wpm ≠ [] := by
    intro h0
    have : (((sortByRaceNum df).drop (df.length - min 50 df.length)).map Race.wpm).length = 0 := by
      rw [h0]; rfl
    rw [List.length_map, hRlen] at this
    omega
  have hm2 : plMean (((sortByRaceNum df).drop (df.length - min 50 df.length)).map Race.wpm) =
      some ((((sortByRaceNum df).drop (df.length - min 50 df.length)).map Race.wpm).sum /
        ((min 50 df.length : Nat) : ℚ)) := by
    rw [plMean_of_ne_nil hRne, List.length_map, hRlen]
  have hvals : rollUnderVals (sortByRaceNum df) =
      some ⟨(df.map Race.wpm).sum / (df.length : ℚ),
        (((sortByRaceNum df).drop (df.length - min 50 df.length)).map Race.wpm).sum /
          ((min 50 df.length : Nat) : ℚ)⟩ := by
    unfold rollUnderVals
    simp only [hds, hm1, hm2, Option.bind_eq_bind, Option.some_bind]
    rfl
  simp only [calculate_rolling_average_insights]
  rw [if_pos (show (sortByRaceNum df).length < 100 by rw [hds]; exact hlt), hds, hvals]
  rfl

/-- Witness for C3 at a concrete two-row dataset. -/
theorem C3_rolling_under_100_witness :
    calculate_rolling_average_insights sampleDf2 =
      some ["Current average: 70 WPM", "Need 98 more races for 100-race rolling average",
            "Keep racing to unlock rolling insights", "Recent 2 races: 70 WPM",
            "Progress: 2/100 races completed", "Rolling analysis unlocks at 100 races"] :=
  (C3_rolling_under_100 sampleDf2 (by decide) (by decide)).trans (by with_unfolding_all rfl)

/-- Witness for C4 at a concrete one-month dataset. -/
theorem C4_under_two_months_witness :
    calculate_performance_over_time_insights sampleDf =
      some ["Need at least 2 months of data", "Current month shown", "Keep racing for trends",
            "Upload more race data", "Monthly trends coming soon",
            "Practice consistently for insights"] :=
  (C4_under_two_months sampleDf (by decide) (by decide)).1

/-- Witness for C10: a known view (`performance-over-time` on a
one-month dataset) yields 6 sentences; an unknown view yields the
3-sentence placeholder. -/
theorem C10_sentence_counts_witness :
    (["Need at least 2 months of data", "Current month shown", "Keep racing for trends",
      "Upload more race data", "Monthly trends coming soon",
      "Practice consistently for insights"].length = 6) ∧
    (["Chart insights not yet implemented", "Showing data for mystery-view",
      "More insights coming soon"].length = 3) :=
  ⟨(C10_sentence_counts sampleDf "performance-over-time" _).1 (by decide)
      (by with_unfolding_all rfl),
    (C10_sentence_counts [] "mystery-view" _).2.1 (by decide)
      (by with_unfolding_all rfl)⟩

/-- C8: on a non-empty dataset where every rank-1 race has accuracy at
least 0.93, the accuracy-by-rank routine's reported low-accuracy-win
exception count (`low_acc_wins`, wins with accuracy below 0.90) is 0,
its reported count of wins at or above the 0.93 threshold equals the
total number of wins, and the routine returns normally with sentence 2
reporting the 0 exceptions. -/
theorem C8_winning_accuracy (df : DataFrame) (hne : df ≠ [])
    (hacc : ∀ r ∈ df, r.rank = 1 → (93:ℚ)/100 ≤ r.accuracy) :
    low_acc_wins df = 0 ∧ wins_with_high_acc df = total_wins df ∧
    ∃ l, calculate_accuracy_by_rank_insights df = some l ∧
      l[1]? = some "When accuracy drops below 90%, you rarely win (0 exceptions)" := by
  have hlow : low_acc_wins df = 0 := by
    unfold low_acc_wins
    rw [List.length_eq_zero, List.filter_eq_nil_iff]
    intro r hr
    simp only [decide_eq_true_eq, not_and]
    intro hrk hlt
    have := hacc r hr hrk
    linarith
  have hwins : wins_with_high_acc df = total_wins df := by
    unfold wins_with_high_acc total_wins
    congr 1
    apply List.filter_congr
    intro r hr
    apply decide_eq_decide.mpr
    exact ⟨fun hp => hp.1, fun hrk => ⟨hrk, hacc r hr hrk⟩⟩
  have hra : rankAccuracy df ≠ [] := rankAccuracy_ne_nil hne
  have hmax : (maxI ((rankAccuracy df).map RankAcc.rank)).isSome :=
    maxI_isSome (fun h0 => hra (List.map_eq_nil_iff.mp h0))
  obtain ⟨m, hm⟩ := Option.isSome_iff_exists.mp hmax
  obtain ⟨g, hg, hgr⟩ := List.mem_map.mp (maxI_mem hm)
  have hgf : g ∈ (rankAccuracy df).filter (fun x => x.rank = m) :=
    List.mem_filter.mpr ⟨hg, by simp [hgr]⟩
  have hfne : ((rankAccuracy df).filter (fun x => x.rank = m)).map RankAcc.avg_accuracy ≠ [] := by
    intro h0
    exact absurd ((List.map_eq_nil_iff.mp h0) ▸ hgf) (List.not_mem_nil g)
  have hmean := plMean_of_ne_nil hfne
  have hvals : accRankVals (rankAccuracy df) =
      some ⟨m, (((rankAccuracy df).filter (fun x => x.rank = m)).map RankAcc.avg_accuracy).sum /
        ((((rankAccuracy df).filter (fun x => x.rank = m)).map
          RankAcc.avg_accuracy).length : ℚ)⟩ := by
    unfold accRankVals
    simp only [hm, Option.bind_eq_bind, Option.some_bind, hmean]
    rfl
  refine ⟨hlow, hwins, accRankSentences df (rankAccuracy df)
    ⟨m, (((rankAccuracy df).filter (fun x => x.rank = m)).map RankAcc.avg_accuracy).sum /
      ((((rankAccuracy df).filter (fun x => x.rank = m)).map
        RankAcc.avg_accuracy).length : ℚ)⟩, ?_, ?_⟩
  · simp only [calculate_accuracy_by_rank_insights]
    rw [hvals]
    rfl
  · have e1 : ∀ v : AccRankVals, (accRankSentences df (rankAccuracy df) v)[1]? =
        some s!"When accuracy drops below 90%, you rarely win ({low_acc_wins df} exceptions)" :=
      fun v => rfl
    rw [e1, hlow]
    rfl

/-- Witness for C8 at a one-row dataset whose single win has accuracy
0.95. -/
theorem C8_winning_accuracy_witness :
    low_acc_wins sampleDf = 0 ∧ wins_with_high_acc sampleDf = total_wins sampleDf ∧
    ∃ l, calculate_accuracy_by_rank_insights sampleDf = some l ∧
      l[1]? = some "When accuracy drops below 90%, you rarely win (0 exceptions)" :=
  C8_winning_accuracy sampleDf (by decide)
    (by intro r hr h1; cases hr with
        | head => exact by norm_num [sampleRace]
        | tail _ hmem => exact absurd hmem (List.not_mem_nil r))

end TypeRacer
